import Mathlib

/-!
# BMP180 driver: shallow embedding and verified properties

The repository holds two copies of a Linux I2C client driver for the BMP180
pressure/temperature sensor:

* `bmp180_driver.c` (namespace `Driver`), which prints the compensated values;
* `User_space/bmp180_driver_userspace.c` (namespace `Userspace`), which caches
  them as text in `data_buffer` and serves that text through `bmp180_read`.

Machine integers are embedded as `Int` with explicit wrapping at every C
operation.  Signed overflow wraps (the kernel is built with
`-fno-strict-overflow`), `>>` on a signed value is an arithmetic shift, `/`
and `%` truncate toward zero, and a division by zero is an undefined result,
rendered as `none`.
-/

namespace BMP180

/-! ## Fixed-width integer conversions -/

/-- Conversion to `s32`: reduction modulo `2^32` into `[-2^31, 2^31)`. -/
def toS32 (x : Int) : Int := (x + 2147483648) % 4294967296 - 2147483648

/-- Conversion to `u32`: reduction modulo `2^32` into `[0, 2^32)`. -/
def toU32 (x : Int) : Int := x % 4294967296

/-- Conversion to `s16`: reduction modulo `2^16` into `[-2^15, 2^15)`. -/
def toS16 (x : Int) : Int := (x + 32768) % 65536 - 32768

/-- Conversion to `u16`: reduction modulo `2^16` into `[0, 2^16)`. -/
def toU16 (x : Int) : Int := x % 65536

/-- Conversion to `s64` (`ssize_t`, `loff_t`). -/
def toS64 (x : Int) : Int :=
  (x + 9223372036854775808) % 18446744073709551616 - 9223372036854775808

/-- Conversion to `u64` (`size_t` on an LP64 kernel). -/
def toU64 (x : Int) : Int := x % 18446744073709551616

/-- C's `>>` on a signed operand: the arithmetic shift `Int.shiftRight`, which
keeps the sign. -/
def asr (x : Int) (n : Nat) : Int := Int.shiftRight x n

/-- C's `>>` on an unsigned operand (a non-negative value): the logical shift
of the underlying natural number. -/
def lsr (x : Int) (n : Nat) : Int := Int.ofNat (x.toNat >>> n)

/-! ## Calibration coefficients -/

/-- The `struct bmp180_calibration_data` of both driver copies.  The fields
`AC4`, `AC5`, `AC6` are `u16`, all the others `s16`. -/
structure bmp180_calibration_data where
  AC1 : Int
  AC2 : Int
  AC3 : Int
  AC4 : Int
  AC5 : Int
  AC6 : Int
  B1 : Int
  B2 : Int
  MB : Int
  MC : Int
  MD : Int
  deriving DecidableEq, Repr

/-- Range of an `s16` value. -/
def isS16 (x : Int) : Prop := -32768 ≤ x ∧ x ≤ 32767

/-- Range of a `u16` value. -/
def isU16 (x : Int) : Prop := 0 ≤ x ∧ x ≤ 65535

/-- Range of an `s32` value. -/
def isS32 (x : Int) : Prop := -2147483648 ≤ x ∧ x ≤ 2147483647

instance (x : Int) : Decidable (isS16 x) := by unfold isS16; infer_instance
instance (x : Int) : Decidable (isU16 x) := by unfold isU16; infer_instance
instance (x : Int) : Decidable (isS32 x) := by unfold isS32; infer_instance

/-- The values a `struct bmp180_calibration_data` can hold: every field lies
in the range of its declared C type. -/
def bmp180_calibration_data.WellTyped (c : bmp180_calibration_data) : Prop :=
  isS16 c.AC1 ∧ isS16 c.AC2 ∧ isS16 c.AC3 ∧ isU16 c.AC4 ∧ isU16 c.AC5 ∧ isU16 c.AC6 ∧
  isS16 c.B1 ∧ isS16 c.B2 ∧ isS16 c.MB ∧ isS16 c.MC ∧ isS16 c.MD

instance (c : bmp180_calibration_data) : Decidable c.WellTyped := by
  unfold bmp180_calibration_data.WellTyped; infer_instance

/-! ## Compensation arithmetic: `bmp180_calculate_values` -/

namespace Driver

/-- The function `bmp180_calculate_values` of `bmp180_driver.c` (lines 118-156).
The function prints `temperature` and `pressure`; the embedding returns
that pair.  `cal_data` is the global calibration structure.  The `u16`/`s16`
fields are promoted to `int` where they are used, which keeps their value. -/
def bmp180_calculate_values (cal_data : bmp180_calibration_data) (UT UP : Int) :
    Option (Int × Int) :=
  -- X1 = ((UT - cal_data.AC6) * cal_data.AC5) >> 15;
  let X1 := asr (toS32 (toS32 (UT - cal_data.AC6) * cal_data.AC5)) 15
  -- X2 = (cal_data.MC << 11) / (X1 + cal_data.MD);
  if toS32 (X1 + cal_data.MD) = 0 then none else
  let X2 := toS32 ((toS32 (cal_data.MC * 2 ^ 11)).tdiv (toS32 (X1 + cal_data.MD)))
  -- B5 = X1 + X2;
  let B5 := toS32 (X1 + X2)
  -- temperature = (B5 + 8) >> 4;
  let temperature := asr (toS32 (B5 + 8)) 4
  -- B6 = B5 - 4000;
  let B6 := toS32 (B5 - 4000)
  -- X1 = (cal_data.B2 * ((B6 * B6) >> 12)) >> 11;
  let X1 := asr (toS32 (cal_data.B2 * asr (toS32 (B6 * B6)) 12)) 11
  -- X2 = (cal_data.AC2 * B6) >> 11;
  let X2 := asr (toS32 (cal_data.AC2 * B6)) 11
  -- X3 = X1 + X2;
  let X3 := toS32 (X1 + X2)
  -- B3 = (((cal_data.AC1 * 4 + X3) << 0) + 2) / 4;
  let B3 := toS32 ((toS32 (toS32 (toS32 (toS32 (cal_data.AC1 * 4) + X3) * 2 ^ 0) + 2)).tdiv 4)
  -- X1 = (cal_data.AC3 * B6) >> 13;
  let X1 := asr (toS32 (cal_data.AC3 * B6)) 13
  -- X2 = (cal_data.B1 * ((B6 * B6) >> 12)) >> 16;
  let X2 := asr (toS32 (cal_data.B1 * asr (toS32 (B6 * B6)) 12)) 16
  -- X3 = ((X1 + X2) + 2) >> 2;
  let X3 := asr (toS32 (toS32 (X1 + X2) + 2)) 2
  -- B4 = (cal_data.AC4 * (u32)(X3 + 32768)) >> 15;
  let B4 := lsr (toU32 (toU32 cal_data.AC4 * toU32 (toS32 (X3 + 32768)))) 15
  -- B7 = ((u32)UP - B3) * (50000 >> 0);
  let B7 := toU32 (toU32 (toU32 UP - toU32 B3) * toU32 (asr 50000 0))
  -- if (B7 < 0x80000000) p = (B7 * 2) / B4; else p = (B7 / B4) * 2;
  if B4 = 0 then none else
  let p := if B7 < 0x80000000 then toS32 ((toU32 (B7 * 2)).tdiv B4)
           else toS32 (toU32 ((B7.tdiv B4) * 2))
  -- X1 = (p >> 8) * (p >> 8);
  let X1 := toS32 (asr p 8 * asr p 8)
  -- X1 = (X1 * 3038) >> 16;
  let X1 := asr (toS32 (X1 * 3038)) 16
  -- X2 = (-7357 * p) >> 16;
  let X2 := asr (toS32 (-7357 * p)) 16
  -- pressure = p + ((X1 + X2 + 3791) >> 4);
  let pressure := toS32 (p + asr (toS32 (toS32 (X1 + X2) + 3791)) 4)
  some (temperature, pressure)

end Driver

namespace Userspace

/-- The function `bmp180_calculate_values` of
`User_space/bmp180_driver_userspace.c` (lines 132-164).  The function stores
its results in the globals `current_temperature` and `current_pressure`; the
embedding returns that pair.  In line 146 the multiplication
`cal_data.B2 * (B6 * B6)` binds tighter than `>> 12`. -/
def bmp180_calculate_values (cal_data : bmp180_calibration_data) (UT UP : Int) :
    Option (Int × Int) :=
  -- X1 = ((UT - (s32)cal_data.AC6) * (s32)cal_data.AC5) >> 15;
  let X1 := asr (toS32 (toS32 (UT - toS32 cal_data.AC6) * toS32 cal_data.AC5)) 15
  -- X2 = ((s32)cal_data.MC << 11) / (X1 + (s32)cal_data.MD);
  if toS32 (X1 + toS32 cal_data.MD) = 0 then none else
  let X2 := toS32 ((toS32 (toS32 cal_data.MC * 2 ^ 11)).tdiv (toS32 (X1 + toS32 cal_data.MD)))
  -- B5 = X1 + X2;
  let B5 := toS32 (X1 + X2)
  -- temperature = (B5 + 8) >> 4;  current_temperature = temperature;
  let temperature := asr (toS32 (B5 + 8)) 4
  -- B6 = B5 - 4000;
  let B6 := toS32 (B5 - 4000)
  -- X1 = ((s32)cal_data.B2 * (B6 * B6) >> 12) >> 11;
  let X1 := asr (asr (toS32 (toS32 cal_data.B2 * toS32 (B6 * B6))) 12) 11
  -- X2 = ((s32)cal_data.AC2 * B6) >> 11;
  let X2 := asr (toS32 (toS32 cal_data.AC2 * B6)) 11
  -- X3 = X1 + X2;
  let X3 := toS32 (X1 + X2)
  -- B3 = ((((s32)cal_data.AC1 * 4 + X3) << 0) + 2) / 4;
  let B3 :=
    toS32 ((toS32 (toS32 (toS32 (toS32 (toS32 cal_data.AC1 * 4) + X3) * 2 ^ 0) + 2)).tdiv 4)
  -- X1 = ((s32)cal_data.AC3 * B6) >> 13;
  let X1 := asr (toS32 (toS32 cal_data.AC3 * B6)) 13
  -- X2 = (((s32)cal_data.B1) * ((B6 * B6) >> 12)) >> 16;
  let X2 := asr (toS32 (toS32 cal_data.B1 * asr (toS32 (B6 * B6)) 12)) 16
  -- X3 = ((X1 + X2) + 2) >> 2;
  let X3 := asr (toS32 (toS32 (X1 + X2) + 2)) 2
  -- B4 = ((u32)cal_data.AC4 * (u32)(X3 + 32768)) >> 15;
  let B4 := lsr (toU32 (toU32 cal_data.AC4 * toU32 (toS32 (X3 + 32768)))) 15
  -- B7 = ((u32)UP - B3) * 50000;
  let B7 := toU32 (toU32 (toU32 UP - toU32 B3) * toU32 50000)
  -- if (B7 < 0x80000000) p = (B7 * 2) / B4; else p = (B7 / B4) * 2;
  if B4 = 0 then none else
  let p := if B7 < 0x80000000 then toS32 ((toU32 (B7 * 2)).tdiv B4)
           else toS32 (toU32 ((B7.tdiv B4) * 2))
  -- X1 = (p >> 8) * (p >> 8);
  let X1 := toS32 (asr p 8 * asr p 8)
  -- X1 = (X1 * 3038) >> 16;
  let X1 := asr (toS32 (X1 * 3038)) 16
  -- X2 = (-7357 * p) >> 16;
  let X2 := asr (toS32 (-7357 * p)) 16
  -- current_pressure = p + ((X1 + X2 + 3791) >> 4);
  let pressure := toS32 (p + asr (toS32 (toS32 (X1 + X2) + 3791)) 4)
  some (temperature, pressure)

end Userspace

/-! ## The compensation pipeline as the specification words it

Section 4.3 of the specification: scratch values `X1, X2, X3, B3, B5, B6` and
`p` are 32-bit signed, `B4` and `B7` are 32-bit unsigned, shifts on signed
values are arithmetic, divisions truncate toward zero. -/

namespace Spec

/-- Signed 32-bit addition with two's-complement wrapping. -/
def add (a b : Int) : Int := toS32 (a + b)

/-- Signed 32-bit subtraction with two's-complement wrapping. -/
def sub (a b : Int) : Int := toS32 (a - b)

/-- Signed 32-bit multiplication with two's-complement wrapping. -/
def mul (a b : Int) : Int := toS32 (a * b)

/-- Arithmetic right shift of a signed value: the floor of `a / 2^n`. -/
def shr (a : Int) (n : Nat) : Int := a / 2 ^ n

/-- Left shift of a signed 32-bit value, wrapping. -/
def shl (a : Int) (n : Nat) : Int := toS32 (a * 2 ^ n)

/-- Signed division truncating toward zero; undefined for a zero divisor. -/
def div (a b : Int) : Option Int := if b = 0 then none else some (toS32 (a.tdiv b))

/-- Unsigned 32-bit subtraction. -/
def usub (a b : Int) : Int := toU32 (toU32 a - toU32 b)

/-- Unsigned 32-bit multiplication. -/
def umul (a b : Int) : Int := toU32 (toU32 a * toU32 b)

/-- Unsigned 32-bit (logical) right shift. -/
def ushr (a : Int) (n : Nat) : Int := toU32 a / 2 ^ n

/-- Unsigned 32-bit division; undefined for a zero divisor. -/
def udiv (a b : Int) : Option Int :=
  if toU32 b = 0 then none else some (toU32 a / toU32 b)

/-- Step 1: `X1 = ((UT − AC6) × AC5) >> 15`. -/
def X1 (UT AC6 AC5 : Int) : Int := shr (mul (sub UT AC6) AC5) 15

/-- The divisor of step 2: `X1 + MD`. -/
def divisor2 (UT AC5 AC6 MD : Int) : Int := add (X1 UT AC6 AC5) MD

/-- Step 2: `X2 = (MC << 11) / (X1 + MD)`. -/
def X2 (UT AC5 AC6 MC MD : Int) : Option Int := div (shl MC 11) (divisor2 UT AC5 AC6 MD)

/-- Step 3, first half: `B5 = X1 + X2`. -/
def B5 (UT AC5 AC6 MC MD : Int) : Option Int :=
  (X2 UT AC5 AC6 MC MD).map fun x2 => add (X1 UT AC6 AC5) x2

/-- Step 3, second half: `temperature = (B5 + 8) >> 4`. -/
def temperature (UT AC5 AC6 MC MD : Int) : Option Int :=
  (B5 UT AC5 AC6 MC MD).map fun b5 => shr (add b5 8) 4

/-- Step 4: `B6 = B5 − 4000`. -/
def B6 (b5 : Int) : Int := sub b5 4000

/-- Step 5: `X1 = (B2 × ((B6×B6) >> 12)) >> 11 ; X2 = (AC2 × B6) >> 11 ;
X3 = X1 + X2`. -/
def X3_step5 (c : bmp180_calibration_data) (b6 : Int) : Int :=
  let x1 := shr (mul c.B2 (shr (mul b6 b6) 12)) 11
  let x2 := shr (mul c.AC2 b6) 11
  add x1 x2

/-- Step 6: `B3 = ((AC1×4 + X3) + 2) / 4` (the divisor is the constant 4). -/
def B3 (c : bmp180_calibration_data) (b6 : Int) : Int :=
  toS32 ((add (add (mul c.AC1 4) (X3_step5 c b6)) 2).tdiv 4)

/-- Step 7: `X1 = (AC3 × B6) >> 13 ; X2 = (B1 × ((B6×B6) >> 12)) >> 16 ;
X3 = ((X1+X2) + 2) >> 2`. -/
def X3_step7 (c : bmp180_calibration_data) (b6 : Int) : Int :=
  let x1 := shr (mul c.AC3 b6) 13
  let x2 := shr (mul c.B1 (shr (mul b6 b6) 12)) 16
  shr (add (add x1 x2) 2) 2

/-- Step 8: `B4 = (AC4 × (unsigned)(X3 + 32768)) >> 15`, unsigned 32-bit. -/
def B4 (c : bmp180_calibration_data) (b6 : Int) : Int :=
  ushr (umul c.AC4 (add (X3_step7 c b6) 32768)) 15

/-- Step 9: `B7 = ((unsigned)UP − B3) × 50000`, unsigned 32-bit. -/
def B7 (c : bmp180_calibration_data) (b6 UP : Int) : Int :=
  umul (usub UP (B3 c b6)) 50000

/-- Step 10: `p = B7 < 0x80000000 ? (B7×2)/B4 : (B7/B4)×2`, both branches
unsigned 32-bit, the result a 32-bit signed `p`. -/
def p (b7 b4 : Int) : Option Int :=
  if b7 < 0x80000000 then (udiv (umul b7 2) b4).map toS32
  else (udiv b7 b4).map fun q => toS32 (umul q 2)

/-- Steps 11 and 12: `X1 = (p>>8)×(p>>8); X1 = (X1×3038) >> 16;
X2 = (−7357×p) >> 16; pressure = p + ((X1 + X2 + 3791) >> 4)`. -/
def pressure_of_p (p : Int) : Int :=
  let x1 := mul (shr p 8) (shr p 8)
  let x1 := shr (mul x1 3038) 16
  let x2 := shr (mul (-7357) p) 16
  add p (shr (add (add x1 x2) 3791) 4)

/-- Steps 4 to 12 from `B5` and `UP`. -/
def pressure_from_B5 (c : bmp180_calibration_data) (b5 UP : Int) : Option Int :=
  let b6 := B6 b5
  (p (B7 c b6 UP) (B4 c b6)).map pressure_of_p

/-- The whole pipeline's pressure: steps 1 to 3 for `B5`, then steps 4 to 12. -/
def pressure (c : bmp180_calibration_data) (UT UP : Int) : Option Int :=
  (B5 UT c.AC5 c.AC6 c.MC c.MD).bind fun b5 => pressure_from_B5 c b5 UP

/-- The divisor of step 10, `B4`, as a function of the inputs; `none` when
step 2 is already undefined. -/
def divisor10 (c : bmp180_calibration_data) (UT : Int) : Option Int :=
  (B5 UT c.AC5 c.AC6 c.MC c.MD).map fun b5 => B4 c (B6 b5)

/-- No divisor of the pipeline is zero: `X1 + MD ≠ 0` at step 2 and
`B4 ≠ 0` at step 10 (the divisor 4 of step 6 is a constant). -/
def NoZeroDivisor (c : bmp180_calibration_data) (UT : Int) : Prop :=
  divisor2 UT c.AC5 c.AC6 c.MD ≠ 0 ∧ ∃ b4, divisor10 c UT = some b4 ∧ b4 ≠ 0

end Spec

/-! ## The I2C bus

The kernel's SMBus calls are the driver's environment.  A bus behaviour is a
pair of reply functions; each reply may depend on every operation issued
before, so the functions range over all deterministic bus behaviours.  The
driver's functions pass the trace of issued operations along. -/

/-- One operation the driver issues: a register write, a block read, or the
conversion wait `msleep`. -/
inductive BusOp where
  | write_byte_data (reg val : Nat)
  | read_i2c_block_data (reg len : Nat)
  | msleep (ms : Nat)
  deriving DecidableEq, Repr

/-- The `struct i2c_client` as the driver sees it: what the bus answers.
`write_reply tr reg val` is the return code of a register write issued after
the operations `tr`; `read_reply tr reg len` is the return code of a block
read together with the contents of the caller's buffer after the call. -/
structure i2c_client where
  write_reply : List BusOp → Nat → Nat → Int
  read_reply : List BusOp → Nat → Nat → Int × List Nat

/-- The kernel call `i2c_smbus_write_byte_data(client, reg, val)`: an `s32`
return code, negative on failure. -/
def i2c_smbus_write_byte_data (client : i2c_client) (tr : List BusOp) (reg val : Nat) :
    Int × List BusOp :=
  (toS32 (client.write_reply tr reg val), tr ++ [BusOp.write_byte_data reg val])

/-- The kernel call `i2c_smbus_read_i2c_block_data(client, reg, len, buf)`: an
`s32` return code (negative on failure, else the number of bytes read) and
the buffer `buf`. -/
def i2c_smbus_read_i2c_block_data (client : i2c_client) (tr : List BusOp) (reg len : Nat) :
    Int × List Nat × List BusOp :=
  (toS32 (client.read_reply tr reg len).1, (client.read_reply tr reg len).2,
    tr ++ [BusOp.read_i2c_block_data reg len])

/-- The kernel call `msleep(ms)`. -/
def msleep (tr : List BusOp) (ms : Nat) : List BusOp := tr ++ [BusOp.msleep ms]

/-- The element `buf[i]` of a `u8` array. -/
def u8_at (buf : List Nat) (i : Nat) : Nat := buf.getD i 0 % 256

def BMP180_REG_CONTROL : Nat := 0xF4
def BMP180_REG_RESULT : Nat := 0xF6
def BMP180_COMMAND_TEMPERATURE : Nat := 0x2E
def BMP180_COMMAND_PRESSURE : Nat := 0x34
def BMP180_REG_CALIBRATION_START : Nat := 0xAA
def BMP180_CALIBRATION_DATA_LENGTH : Nat := 22
def BUFFER_SIZE : Nat := 256

/-- The error code `-EFAULT`. -/
def EFAULT : Int := 14

/-! ## Text: C strings as byte lists -/

/-- The bytes (UTF-8) of a string literal of the source. -/
def bytes (s : String) : List Nat :=
  s.toList.flatMap fun c => (String.utf8EncodeChar c).map UInt8.toNat

/-- The conversion `%d` of `printf` for an `int`: a minus sign for a negative
value, then the decimal digits of the magnitude. -/
def fmt_d (v : Int) : List Nat :=
  if v < 0 then 45 :: (Nat.toDigits 10 v.natAbs).map Char.toNat
  else (Nat.toDigits 10 v.natAbs).map Char.toNat

/-- The library call `strlen`: the number of bytes before the first NUL. -/
def strlen (buf : List Nat) : Nat := (buf.takeWhile fun b => b ≠ 0).length

/-- The C string held in a `char` array: the bytes before the first NUL. -/
def cstring (buf : List Nat) : List Nat := buf.takeWhile fun b => b ≠ 0

/-- The library call `snprintf(dst, size, ...)` once the output `out` is
formatted: at most `size - 1` bytes of `out` and a terminating NUL overwrite the
start of `dst`; the bytes of `dst` after the NUL keep their value. -/
def snprintf (dst : List Nat) (size : Nat) (out : List Nat) : List Nat :=
  if size = 0 then dst
  else (out.take (size - 1) ++ [0]) ++ dst.drop ((out.take (size - 1)).length + 1)

/-- The kernel call `copy_to_user(to, from, n)` for a user buffer of which
`writable` bytes can be written: the number of bytes that could not be copied
and the bytes that were. -/
def copy_to_user (writable : Nat) (src : List Nat) (n : Nat) : Nat × List Nat :=
  (n - min n writable, src.take (min n writable))

/-! ## The user-space copy: device state and operations -/

namespace Userspace

/-- The globals of `User_space/bmp180_driver_userspace.c` (lines 40-44) that
the operations read and write. -/
structure State where
  data_buffer : List Nat
  cal_data : bmp180_calibration_data
  current_temperature : Int
  current_pressure : Int
  deriving DecidableEq, Repr

/-- The initial contents of `data_buffer`: `"No data\n"`, the rest of the 256
bytes zero. -/
def initial_data_buffer : List Nat :=
  bytes "No data\n" ++ List.replicate (BUFFER_SIZE - (bytes "No data\n").length) 0

/-- The result of one `bmp180_read` call: the return value, the offset `*ppos`
after the call and the bytes written to the user buffer. -/
structure ReadResult where
  ret : Int
  ppos : Int
  copied : List Nat
  deriving DecidableEq, Repr

/-- The function `bmp180_read` (lines 46-54) on an LP64 kernel: `len` is an
`ssize_t`, `count` a `size_t`, `*ppos` a `loff_t`.  `user_writable` is the
number of writable bytes of the user buffer `buf`.  The file layer passes
only non-negative offsets. -/
def bmp180_read (st : State) (user_writable : Nat) (count : Nat) (ppos : Int) : ReadResult :=
  -- ssize_t len = strlen(data_buffer);
  let len := toS64 (strlen st.data_buffer)
  -- if (*ppos >= len) return 0;
  if ppos ≥ len then ⟨0, ppos, []⟩ else
  -- if (count > len - *ppos) count = len - *ppos;
  let count := if toU64 count > toU64 (toS64 (len - ppos)) then toU64 (toS64 (len - ppos))
               else toU64 count
  -- if (copy_to_user(buf, data_buffer + *ppos, count)) return -EFAULT;
  let c := copy_to_user user_writable (st.data_buffer.drop ppos.toNat) count.toNat
  if c.1 ≠ 0 then ⟨-EFAULT, ppos, c.2⟩ else
  -- *ppos += count;  return count;
  ⟨toS64 count, toS64 (toU64 ppos + count), c.2⟩

/-- The function `bmp180_read_calibration_data` (lines 61-86).  Each
coefficient is the `int` value `(buf[2k] << 8) | buf[2k+1]` converted to the
type of its field. -/
def bmp180_read_calibration_data (client : i2c_client) (st : State) (tr : List BusOp) :
    Int × State × List BusOp :=
  let r := i2c_smbus_read_i2c_block_data client tr BMP180_REG_CALIBRATION_START
    BMP180_CALIBRATION_DATA_LENGTH
  let ret := r.1
  let buf := r.2.1
  let tr := r.2.2
  if ret < 0 then
    -- snprintf(data_buffer, BUFFER_SIZE, "Failed to read calibration data\n");
    (ret, { st with data_buffer :=
              snprintf st.data_buffer BUFFER_SIZE (bytes "Failed to read calibration data\n") },
      tr)
  else
    (0, { st with cal_data :=
      { AC1 := toS16 (((u8_at buf 0 <<< 8) ||| u8_at buf 1 : Nat) : Int)
        AC2 := toS16 (((u8_at buf 2 <<< 8) ||| u8_at buf 3 : Nat) : Int)
        AC3 := toS16 (((u8_at buf 4 <<< 8) ||| u8_at buf 5 : Nat) : Int)
        AC4 := toU16 (((u8_at buf 6 <<< 8) ||| u8_at buf 7 : Nat) : Int)
        AC5 := toU16 (((u8_at buf 8 <<< 8) ||| u8_at buf 9 : Nat) : Int)
        AC6 := toU16 (((u8_at buf 10 <<< 8) ||| u8_at buf 11 : Nat) : Int)
        B1 := toS16 (((u8_at buf 12 <<< 8) ||| u8_at buf 13 : Nat) : Int)
        B2 := toS16 (((u8_at buf 14 <<< 8) ||| u8_at buf 15 : Nat) : Int)
        MB := toS16 (((u8_at buf 16 <<< 8) ||| u8_at buf 17 : Nat) : Int)
        MC := toS16 (((u8_at buf 18 <<< 8) ||| u8_at buf 19 : Nat) : Int)
        MD := toS16 (((u8_at buf 20 <<< 8) ||| u8_at buf 21 : Nat) : Int) } }, tr)

/-- The function `bmp180_read_uncompensated_temperature` (lines 88-108): the
`s32` it returns and the bus trace. -/
def bmp180_read_uncompensated_temperature (client : i2c_client) (tr : List BusOp) :
    Int × List BusOp :=
  -- ret = i2c_smbus_write_byte_data(client, BMP180_REG_CONTROL, BMP180_COMMAND_TEMPERATURE);
  let w := i2c_smbus_write_byte_data client tr BMP180_REG_CONTROL BMP180_COMMAND_TEMPERATURE
  if w.1 < 0 then (w.1, w.2) else
  -- msleep(5);
  let tr := msleep w.2 5
  -- ret = i2c_smbus_read_i2c_block_data(client, BMP180_REG_RESULT, 2, buf);
  let r := i2c_smbus_read_i2c_block_data client tr BMP180_REG_RESULT 2
  if r.1 < 0 then (r.1, r.2.2) else
  -- UT = (buf[0] << 8) | buf[1];
  (toS32 (((u8_at r.2.1 0 <<< 8) ||| u8_at r.2.1 1 : Nat) : Int), r.2.2)

/-- The function `bmp180_read_uncompensated_pressure` (lines 110-130): the
`s32` it returns and the bus trace. -/
def bmp180_read_uncompensated_pressure (client : i2c_client) (tr : List BusOp) :
    Int × List BusOp :=
  -- ret = i2c_smbus_write_byte_data(client, BMP180_REG_CONTROL, BMP180_COMMAND_PRESSURE);
  let w := i2c_smbus_write_byte_data client tr BMP180_REG_CONTROL BMP180_COMMAND_PRESSURE
  if w.1 < 0 then (w.1, w.2) else
  -- msleep(5);
  let tr := msleep w.2 5
  -- ret = i2c_smbus_read_i2c_block_data(client, BMP180_REG_RESULT, 3, buf);
  let r := i2c_smbus_read_i2c_block_data client tr BMP180_REG_RESULT 3
  if r.1 < 0 then (r.1, r.2.2) else
  -- UP = ((buf[0] << 16) | (buf[1] << 8) | buf[2]) >> 8;
  (asr (toS32 ((((u8_at r.2.1 0 <<< 16) ||| (u8_at r.2.1 1 <<< 8)) ||| u8_at r.2.1 2 : Nat) : Int))
    8, r.2.2)

/-- The text `bmp180_read_data` formats (lines 181-182):
`"Temperature: %d.%d °C\nPressure: %d Pa\n"` with the arguments
`current_temperature / 10`, `current_temperature % 10`, `current_pressure`. -/
def reading_text (current_temperature current_pressure : Int) : List Nat :=
  bytes "Temperature: " ++ fmt_d (toS32 (current_temperature.tdiv 10)) ++ bytes "." ++
    fmt_d (toS32 (current_temperature.tmod 10)) ++ bytes " °C\nPressure: " ++
    fmt_d current_pressure ++ bytes " Pa\n"

/-- The function `bmp180_read_data` (lines 166-185): the return code, the
globals and the bus trace after the call; `none` when the arithmetic of
`bmp180_calculate_values` divides by zero. -/
def bmp180_read_data (client : i2c_client) (st : State) (tr : List BusOp) :
    Option (Int × State × List BusOp) :=
  -- UT = bmp180_read_uncompensated_temperature(client);  if (UT < 0) return UT;
  let t := bmp180_read_uncompensated_temperature client tr
  if t.1 < 0 then some (t.1, st, t.2) else
  -- UP = bmp180_read_uncompensated_pressure(client);  if (UP < 0) return UP;
  let p := bmp180_read_uncompensated_pressure client t.2
  if p.1 < 0 then some (p.1, st, p.2) else
  -- bmp180_calculate_values(UT, UP);
  match bmp180_calculate_values st.cal_data t.1 p.1 with
  | none => none
  | some v =>
    -- snprintf(data_buffer, BUFFER_SIZE, "Temperature: %d.%d °C\nPressure: %d Pa\n", ...);
    some (0, { st with
      current_temperature := v.1
      current_pressure := v.2
      data_buffer := snprintf st.data_buffer BUFFER_SIZE (reading_text v.1 v.2) }, p.2)

end Userspace
/-! ## Device registration and `bmp180_probe` of the user-space copy -/

/-- The error code `-EIO_errno`. -/
def EIO_errno : Int := 5

/-- What the kernel answers to the registration calls of `bmp180_probe`:
`i2c_check_functionality`, `register_chrdev` (the major number, negative on
failure), `class_create` and `device_create` (`none` for a valid pointer,
`some e` for an error pointer with `PTR_ERR` value `e`). -/
structure Registration where
  functionality : Bool
  major_number : Int
  class_error : Option Int
  device_error : Option Int

/-- Device registration succeeds at every step. -/
def Registration.Succeeds (r : Registration) : Prop :=
  r.functionality = true ∧ 0 ≤ toS32 r.major_number ∧ r.class_error = none ∧
    r.device_error = none

instance (r : Registration) : Decidable r.Succeeds := by
  unfold Registration.Succeeds; infer_instance

namespace Userspace

/-- The function `bmp180_probe` (lines 187-235): the return code, the globals
and the bus trace; `none` when the arithmetic of the first acquisition divides
by zero.  The return value of `bmp180_read_data` is not looked at (line 232). -/
def bmp180_probe (client : i2c_client) (reg : Registration) (st : State) (tr : List BusOp) :
    Option (Int × State × List BusOp) :=
  -- if (!i2c_check_functionality(...)) return -EIO_errno;
  if reg.functionality = false then some (-EIO_errno, st, tr) else
  -- major_number = register_chrdev(0, DEVICE_NAME, &fops);  if (major_number < 0) return ...
  if toS32 reg.major_number < 0 then some (toS32 reg.major_number, st, tr) else
  -- bmp180_class = class_create(...);  if (IS_ERR(bmp180_class)) ... return PTR_ERR(...)
  match reg.class_error with
  | some e => some (toS32 e, st, tr)
  | none =>
  -- bmp180_device = device_create(...);  if (IS_ERR(bmp180_device)) ... return PTR_ERR(...)
  match reg.device_error with
  | some e => some (toS32 e, st, tr)
  | none =>
  -- ret = bmp180_read_calibration_data(client);  if (ret < 0) { ...; return ret; }
  let c := bmp180_read_calibration_data client st tr
  if c.1 < 0 then some (c.1, c.2.1, c.2.2) else
  -- bmp180_read_data(client);  return 0;
  match bmp180_read_data client c.2.1 c.2.2 with
  | none => none
  | some d => some (0, d.2.1, d.2.2)

end Userspace

/-! ## The kernel-log copy: operations of `bmp180_driver.c`

Its only global that the operations read and write is `cal_data`; the
compensated values go to the kernel log. -/

namespace Driver

/-- The function `bmp180_read_calibration_data` of `bmp180_driver.c` (lines
34-62): the return code, `cal_data` and the bus trace after the call. -/
def bmp180_read_calibration_data (client : i2c_client) (cal_data : bmp180_calibration_data)
    (tr : List BusOp) : Int × bmp180_calibration_data × List BusOp :=
  let r := i2c_smbus_read_i2c_block_data client tr BMP180_REG_CALIBRATION_START
    BMP180_CALIBRATION_DATA_LENGTH
  let ret := r.1
  let buf := r.2.1
  let tr := r.2.2
  if ret < 0 then (ret, cal_data, tr)
  else
    (0, { AC1 := toS16 (((u8_at buf 0 <<< 8) ||| u8_at buf 1 : Nat) : Int)
          AC2 := toS16 (((u8_at buf 2 <<< 8) ||| u8_at buf 3 : Nat) : Int)
          AC3 := toS16 (((u8_at buf 4 <<< 8) ||| u8_at buf 5 : Nat) : Int)
          AC4 := toU16 (((u8_at buf 6 <<< 8) ||| u8_at buf 7 : Nat) : Int)
          AC5 := toU16 (((u8_at buf 8 <<< 8) ||| u8_at buf 9 : Nat) : Int)
          AC6 := toU16 (((u8_at buf 10 <<< 8) ||| u8_at buf 11 : Nat) : Int)
          B1 := toS16 (((u8_at buf 12 <<< 8) ||| u8_at buf 13 : Nat) : Int)
          B2 := toS16 (((u8_at buf 14 <<< 8) ||| u8_at buf 15 : Nat) : Int)
          MB := toS16 (((u8_at buf 16 <<< 8) ||| u8_at buf 17 : Nat) : Int)
          MC := toS16 (((u8_at buf 18 <<< 8) ||| u8_at buf 19 : Nat) : Int)
          MD := toS16 (((u8_at buf 20 <<< 8) ||| u8_at buf 21 : Nat) : Int) }, tr)

/-- The function `bmp180_read_uncompensated_temperature` of `bmp180_driver.c`
(lines 64-89). -/
def bmp180_read_uncompensated_temperature (client : i2c_client) (tr : List BusOp) :
    Int × List BusOp :=
  let w := i2c_smbus_write_byte_data client tr BMP180_REG_CONTROL BMP180_COMMAND_TEMPERATURE
  if w.1 < 0 then (w.1, w.2) else
  let tr := msleep w.2 5
  let r := i2c_smbus_read_i2c_block_data client tr BMP180_REG_RESULT 2
  if r.1 < 0 then (r.1, r.2.2) else
  (toS32 (((u8_at r.2.1 0 <<< 8) ||| u8_at r.2.1 1 : Nat) : Int), r.2.2)

/-- The function `bmp180_read_uncompensated_pressure` of `bmp180_driver.c`
(lines 91-116). -/
def bmp180_read_uncompensated_pressure (client : i2c_client) (tr : List BusOp) :
    Int × List BusOp :=
  let w := i2c_smbus_write_byte_data client tr BMP180_REG_CONTROL BMP180_COMMAND_PRESSURE
  if w.1 < 0 then (w.1, w.2) else
  let tr := msleep w.2 5
  let r := i2c_smbus_read_i2c_block_data client tr BMP180_REG_RESULT 3
  if r.1 < 0 then (r.1, r.2.2) else
  (asr (toS32 ((((u8_at r.2.1 0 <<< 16) ||| (u8_at r.2.1 1 <<< 8)) ||| u8_at r.2.1 2 : Nat) : Int))
    8, r.2.2)

/-- The function `bmp180_read_data` of `bmp180_driver.c` (lines 158-178): the
return code and the bus trace; `none` when the arithmetic of
`bmp180_calculate_values` divides by zero.  Line 165 is read as `return UT;`
(the stray text after the semicolon is not code). -/
def bmp180_read_data (client : i2c_client) (cal_data : bmp180_calibration_data)
    (tr : List BusOp) : Option (Int × List BusOp) :=
  let t := bmp180_read_uncompensated_temperature client tr
  if t.1 < 0 then some (t.1, t.2) else
  let p := bmp180_read_uncompensated_pressure client t.2
  if p.1 < 0 then some (p.1, p.2) else
  match bmp180_calculate_values cal_data t.1 p.1 with
  | none => none
  | some _ => some (0, p.2)

/-- The function `bmp180_probe` of `bmp180_driver.c` (lines 180-202): the
return code, `cal_data` and the bus trace.  This copy registers no device. -/
def bmp180_probe (client : i2c_client) (cal_data : bmp180_calibration_data)
    (tr : List BusOp) : Option (Int × bmp180_calibration_data × List BusOp) :=
  -- ret = bmp180_read_calibration_data(client);  if (ret < 0) return ret;
  let c := bmp180_read_calibration_data client cal_data tr
  if c.1 < 0 then some (c.1, c.2.1, c.2.2) else
  -- ret = bmp180_read_data(client);  if (ret < 0) return ret;  return 0;
  match bmp180_read_data client c.2.1 c.2.2 with
  | none => none
  | some d => if d.1 < 0 then some (d.1, c.2.1, d.2) else some (0, c.2.1, d.2)

end Driver

/-! ## Excerpts of `bmp180_calculate_values` -/

/-- The value `bmp180_calculate_values` assigns to the `s32` variable `p`
from the `u32` values `B7` and `B4` (both copies, same text):
`if (B7 < 0x80000000) p = (B7 * 2) / B4; else p = (B7 / B4) * 2;`. -/
def step10 (B7 B4 : Int) : Int :=
  if B7 < 0x80000000 then toS32 ((toU32 (B7 * 2)).tdiv B4)
  else toS32 (toU32 ((B7.tdiv B4) * 2))

namespace Userspace

/-- The value of `B7` in the user-space copy as a function of `B6` and `UP`
(lines 146-149 and 154 of `bmp180_calculate_values`). -/
def B7_of (cal_data : bmp180_calibration_data) (B6 UP : Int) : Int :=
  let X1 := asr (asr (toS32 (toS32 cal_data.B2 * toS32 (B6 * B6))) 12) 11
  let X2 := asr (toS32 (toS32 cal_data.AC2 * B6)) 11
  let X3 := toS32 (X1 + X2)
  let B3 :=
    toS32 ((toS32 (toS32 (toS32 (toS32 (toS32 cal_data.AC1 * 4) + X3) * 2 ^ 0) + 2)).tdiv 4)
  toU32 (toU32 (toU32 UP - toU32 B3) * toU32 50000)

end Userspace

/-! ## `bmp180_calculate_values` stage by stage

The same two function bodies once more, keeping what a run has computed when
a division by zero stops it: `none` when the division of step 2 has a zero
divisor (nothing is computed yet), `some (t, none)` when `temperature` has its
value `t` and the division of step 10 has a zero divisor, `some (t, some p)`
when the run reaches its end with the pressure `p`. -/

namespace Driver.Staged

/-- The function `bmp180_calculate_values` of `bmp180_driver.c` (lines 118-156)
with the value of its local `temperature` (line 128) kept apart from the
pressure, which the lines after it compute. -/
def bmp180_calculate_values (cal_data : bmp180_calibration_data) (UT UP : Int) :
    Option (Int × Option Int) :=
  -- X1 = ((UT - cal_data.AC6) * cal_data.AC5) >> 15;
  let X1 := asr (toS32 (toS32 (UT - cal_data.AC6) * cal_data.AC5)) 15
  -- X2 = (cal_data.MC << 11) / (X1 + cal_data.MD);
  if toS32 (X1 + cal_data.MD) = 0 then none else
  let X2 := toS32 ((toS32 (cal_data.MC * 2 ^ 11)).tdiv (toS32 (X1 + cal_data.MD)))
  -- B5 = X1 + X2;
  let B5 := toS32 (X1 + X2)
  -- temperature = (B5 + 8) >> 4;
  let temperature := asr (toS32 (B5 + 8)) 4
  -- B6 = B5 - 4000;
  let B6 := toS32 (B5 - 4000)
  -- X1 = (cal_data.B2 * ((B6 * B6) >> 12)) >> 11;
  let X1 := asr (toS32 (cal_data.B2 * asr (toS32 (B6 * B6)) 12)) 11
  -- X2 = (cal_data.AC2 * B6) >> 11;
  let X2 := asr (toS32 (cal_data.AC2 * B6)) 11
  -- X3 = X1 + X2;
  let X3 := toS32 (X1 + X2)
  -- B3 = (((cal_data.AC1 * 4 + X3) << 0) + 2) / 4;
  let B3 := toS32 ((toS32 (toS32 (toS32 (toS32 (cal_data.AC1 * 4) + X3) * 2 ^ 0) + 2)).tdiv 4)
  -- X1 = (cal_data.AC3 * B6) >> 13;
  let X1 := asr (toS32 (cal_data.AC3 * B6)) 13
  -- X2 = (cal_data.B1 * ((B6 * B6) >> 12)) >> 16;
  let X2 := asr (toS32 (cal_data.B1 * asr (toS32 (B6 * B6)) 12)) 16
  -- X3 = ((X1 + X2) + 2) >> 2;
  let X3 := asr (toS32 (toS32 (X1 + X2) + 2)) 2
  -- B4 = (cal_data.AC4 * (u32)(X3 + 32768)) >> 15;
  let B4 := lsr (toU32 (toU32 cal_data.AC4 * toU32 (toS32 (X3 + 32768)))) 15
  -- B7 = ((u32)UP - B3) * (50000 >> 0);
  let B7 := toU32 (toU32 (toU32 UP - toU32 B3) * toU32 (asr 50000 0))
  -- if (B7 < 0x80000000) p = (B7 * 2) / B4; else p = (B7 / B4) * 2;
  if B4 = 0 then some (temperature, none) else
  let p := if B7 < 0x80000000 then toS32 ((toU32 (B7 * 2)).tdiv B4)
           else toS32 (toU32 ((B7.tdiv B4) * 2))
  -- X1 = (p >> 8) * (p >> 8);
  let X1 := toS32 (asr p 8 * asr p 8)
  -- X1 = (X1 * 3038) >> 16;
  let X1 := asr (toS32 (X1 * 3038)) 16
  -- X2 = (-7357 * p) >> 16;
  let X2 := asr (toS32 (-7357 * p)) 16
  -- pressure = p + ((X1 + X2 + 3791) >> 4);
  let pressure := toS32 (p + asr (toS32 (toS32 (X1 + X2) + 3791)) 4)
  some (temperature, some pressure)

end Driver.Staged

namespace Userspace.Staged

/-- The function `bmp180_calculate_values` of
`User_space/bmp180_driver_userspace.c` (lines 132-164) with the value stored
in `current_temperature` (line 142) kept apart from the value stored in
`current_pressure` (line 163), which the lines after it compute. -/
def bmp180_calculate_values (cal_data : bmp180_calibration_data) (UT UP : Int) :
    Option (Int × Option Int) :=
  -- X1 = ((UT - (s32)cal_data.AC6) * (s32)cal_data.AC5) >> 15;
  let X1 := asr (toS32 (toS32 (UT - toS32 cal_data.AC6) * toS32 cal_data.AC5)) 15
  -- X2 = ((s32)cal_data.MC << 11) / (X1 + (s32)cal_data.MD);
  if toS32 (X1 + toS32 cal_data.MD) = 0 then none else
  let X2 := toS32 ((toS32 (toS32 cal_data.MC * 2 ^ 11)).tdiv (toS32 (X1 + toS32 cal_data.MD)))
  -- B5 = X1 + X2;
  let B5 := toS32 (X1 + X2)
  -- temperature = (B5 + 8) >> 4;  current_temperature = temperature;
  let temperature := asr (toS32 (B5 + 8)) 4
  -- B6 = B5 - 4000;
  let B6 := toS32 (B5 - 4000)
  -- X1 = ((s32)cal_data.B2 * (B6 * B6) >> 12) >> 11;
  let X1 := asr (asr (toS32 (toS32 cal_data.B2 * toS32 (B6 * B6))) 12) 11
  -- X2 = ((s32)cal_data.AC2 * B6) >> 11;
  let X2 := asr (toS32 (toS32 cal_data.AC2 * B6)) 11
  -- X3 = X1 + X2;
  let X3 := toS32 (X1 + X2)
  -- B3 = ((((s32)cal_data.AC1 * 4 + X3) << 0) + 2) / 4;
  let B3 :=
    toS32 ((toS32 (toS32 (toS32 (toS32 (toS32 cal_data.AC1 * 4) + X3) * 2 ^ 0) + 2)).tdiv 4)
  -- X1 = ((s32)cal_data.AC3 * B6) >> 13;
  let X1 := asr (toS32 (toS32 cal_data.AC3 * B6)) 13
  -- X2 = (((s32)cal_data.B1) * ((B6 * B6) >> 12)) >> 16;
  let X2 := asr (toS32 (toS32 cal_data.B1 * asr (toS32 (B6 * B6)) 12)) 16
  -- X3 = ((X1 + X2) + 2) >> 2;
  let X3 := asr (toS32 (toS32 (X1 + X2) + 2)) 2
  -- B4 = ((u32)cal_data.AC4 * (u32)(X3 + 32768)) >> 15;
  let B4 := lsr (toU32 (toU32 cal_data.AC4 * toU32 (toS32 (X3 + 32768)))) 15
  -- B7 = ((u32)UP - B3) * 50000;
  let B7 := toU32 (toU32 (toU32 UP - toU32 B3) * toU32 50000)
  -- if (B7 < 0x80000000) p = (B7 * 2) / B4; else p = (B7 / B4) * 2;
  if B4 = 0 then some (temperature, none) else
  let p := if B7 < 0x80000000 then toS32 ((toU32 (B7 * 2)).tdiv B4)
           else toS32 (toU32 ((B7.tdiv B4) * 2))
  -- X1 = (p >> 8) * (p >> 8);
  let X1 := toS32 (asr p 8 * asr p 8)
  -- X1 = (X1 * 3038) >> 16;
  let X1 := asr (toS32 (X1 * 3038)) 16
  -- X2 = (-7357 * p) >> 16;
  let X2 := asr (toS32 (-7357 * p)) 16
  -- current_pressure = p + ((X1 + X2 + 3791) >> 4);
  let pressure := toS32 (p + asr (toS32 (toS32 (X1 + X2) + 3791)) 4)
  some (temperature, some pressure)

end Userspace.Staged

namespace Userspace.Threaded

/-- The function `bmp180_read` (lines 46-54) statement by statement on the
whole system: every statement takes the globals and the bus trace the
statement before left and hands on what it leaves; the result of the call
comes with the globals and the trace at the `return`. -/
def bmp180_read (st : State) (tr : List BusOp) (user_writable : Nat) (count : Nat)
    (ppos : Int) : ReadResult × State × List BusOp :=
  -- ssize_t len = strlen(data_buffer);
  let len := toS64 (strlen st.data_buffer)
  let st1 := st
  let tr1 := tr
  -- if (*ppos >= len) return 0;
  if ppos ≥ len then (⟨0, ppos, []⟩, st1, tr1) else
  -- if (count > len - *ppos) count = len - *ppos;
  let count := if toU64 count > toU64 (toS64 (len - ppos)) then toU64 (toS64 (len - ppos))
               else toU64 count
  let st2 := st1
  let tr2 := tr1
  -- if (copy_to_user(buf, data_buffer + *ppos, count)) return -EFAULT;
  let c := copy_to_user user_writable (st2.data_buffer.drop ppos.toNat) count.toNat
  let st3 := st2
  let tr3 := tr2
  if c.1 ≠ 0 then (⟨-EFAULT, ppos, c.2⟩, st3, tr3) else
  -- *ppos += count;  return count;
  (⟨toS64 count, toS64 (toU64 ppos + count), c.2⟩, st3, tr3)

end Userspace.Threaded

/-! ## The acquisition and read contracts as the specification words them -/

namespace Spec

/-- The two's-complement reading of a 16-bit pattern `v` in `0..65535`. -/
def signed16 (v : Int) : Int := if v < 32768 then v else v - 65536

/-- The big-endian value `256*buf[2k] + buf[2k+1]` of the `k`-th byte pair. -/
def be16 (buf : List Nat) (k : Nat) : Int :=
  256 * (buf.getD (2 * k) 0 : Nat) + (buf.getD (2 * k + 1) 0 : Nat)

/-- The trace after a conversion command `cmd` was written and the conversion
time waited. -/
def afterCommand (tr : List BusOp) (cmd : Nat) : List BusOp :=
  tr ++ [BusOp.write_byte_data 0xF4 cmd, BusOp.msleep 5]

/-- The trace after a whole raw read: command, wait, `n`-byte result read. -/
def afterRead (tr : List BusOp) (cmd n : Nat) : List BusOp :=
  tr ++ [BusOp.write_byte_data 0xF4 cmd, BusOp.msleep 5, BusOp.read_i2c_block_data 0xF6 n]

/-- First bus step: the return code of the temperature command write. -/
def tempWrite (client : i2c_client) (tr : List BusOp) : Int :=
  toS32 (client.write_reply tr 0xF4 0x2E)

/-- Second bus step: the return code of the 2-byte result read. -/
def tempRead (client : i2c_client) (tr : List BusOp) : Int :=
  toS32 (client.read_reply (afterCommand tr 0x2E) 0xF6 2).1

/-- Third bus step: the return code of the pressure command write. -/
def pressWrite (client : i2c_client) (tr : List BusOp) : Int :=
  toS32 (client.write_reply (afterRead tr 0x2E 2) 0xF4 0x34)

/-- Fourth bus step: the return code of the 3-byte result read. -/
def pressRead (client : i2c_client) (tr : List BusOp) : Int :=
  toS32 (client.read_reply (afterCommand (afterRead tr 0x2E 2) 0x34) 0xF6 3).1

/-- One of the four acquisition bus steps fails: the steps before it succeeded
and it returns a negative code. -/
def AcquisitionFails (client : i2c_client) (tr : List BusOp) : Prop :=
  tempWrite client tr < 0 ∨
  (0 ≤ tempWrite client tr ∧ tempRead client tr < 0) ∨
  (0 ≤ tempWrite client tr ∧ 0 ≤ tempRead client tr ∧ pressWrite client tr < 0) ∨
  (0 ≤ tempWrite client tr ∧ 0 ≤ tempRead client tr ∧ 0 ≤ pressWrite client tr ∧
    pressRead client tr < 0)

instance (client : i2c_client) (tr : List BusOp) : Decidable (AcquisitionFails client tr) := by
  unfold AcquisitionFails; infer_instance

end Spec

namespace Userspace

/-- The consumer's loop: `n` successive `bmp180_read` calls with the same
`count`, each starting at the offset the call before left; the list of
results and the final offset. -/
def read_repeat (st : State) (user_writable count : Nat) : Nat → Int → List ReadResult × Int
  | 0, ppos => ([], ppos)
  | n + 1, ppos =>
    let r := bmp180_read st user_writable count ppos
    let rest := read_repeat st user_writable count n r.ppos
    (r :: rest.1, rest.2)

end Userspace

namespace Spec

/-- The raw temperature `256*b0 + b1` of the two result bytes the bus returns. -/
def rawUT (client : i2c_client) (tr : List BusOp) : Int :=
  256 * (u8_at (client.read_reply (afterCommand tr 0x2E) 0xF6 2).2 0 : Int) +
    (u8_at (client.read_reply (afterCommand tr 0x2E) 0xF6 2).2 1 : Int)

/-- The raw pressure `256*b0 + b1` of the three result bytes the bus returns. -/
def rawUP (client : i2c_client) (tr : List BusOp) : Int :=
  256 * (u8_at (client.read_reply (afterCommand (afterRead tr 0x2E 2) 0x34) 0xF6 3).2 0 : Int) +
    (u8_at (client.read_reply (afterCommand (afterRead tr 0x2E 2) 0x34) 0xF6 3).2 1 : Int)

/-- The trace after a whole acquisition: temperature read, then pressure read. -/
def fullTrace (tr : List BusOp) : List BusOp := afterRead (afterRead tr 0x2E 2) 0x34 3

/-- The temperature acquisition fails: its command write or its result read
returns a negative code. -/
def TemperatureFails (client : i2c_client) (tr : List BusOp) : Prop :=
  tempWrite client tr < 0 ∨ (0 ≤ tempWrite client tr ∧ tempRead client tr < 0)

instance (client : i2c_client) (tr : List BusOp) : Decidable (TemperatureFails client tr) := by
  unfold TemperatureFails; infer_instance

/-- A bus operation of the pressure acquisition: a write of 0x34 to register
0xF4 or a 3-byte read of register 0xF6. -/
def IsPressureOp (op : BusOp) : Prop :=
  op = BusOp.write_byte_data 0xF4 0x34 ∨ op = BusOp.read_i2c_block_data 0xF6 3

instance (op : BusOp) : Decidable (IsPressureOp op) := by
  unfold IsPressureOp; infer_instance

/-- The return code of the calibration block read. -/
def calRead (client : i2c_client) (tr : List BusOp) : Int :=
  toS32 (client.read_reply tr 0xAA 22).1

/-- The trace after the calibration block read. -/
def afterCal (tr : List BusOp) : List BusOp := tr ++ [BusOp.read_i2c_block_data 0xAA 22]

/-- The coefficients decoded from a calibration buffer, field by field in
register order, signed except AC4, AC5, AC6. -/
def decode (buf : List Nat) : bmp180_calibration_data :=
  { AC1 := signed16 (256 * (u8_at buf 0 : Int) + u8_at buf 1)
    AC2 := signed16 (256 * (u8_at buf 2 : Int) + u8_at buf 3)
    AC3 := signed16 (256 * (u8_at buf 4 : Int) + u8_at buf 5)
    AC4 := 256 * (u8_at buf 6 : Int) + u8_at buf 7
    AC5 := 256 * (u8_at buf 8 : Int) + u8_at buf 9
    AC6 := 256 * (u8_at buf 10 : Int) + u8_at buf 11
    B1 := signed16 (256 * (u8_at buf 12 : Int) + u8_at buf 13)
    B2 := signed16 (256 * (u8_at buf 14 : Int) + u8_at buf 15)
    MB := signed16 (256 * (u8_at buf 16 : Int) + u8_at buf 17)
    MC := signed16 (256 * (u8_at buf 18 : Int) + u8_at buf 19)
    MD := signed16 (256 * (u8_at buf 20 : Int) + u8_at buf 21) }

end Spec

/-- The calibration set of the data sheet's worked example. -/
def datasheetCal : bmp180_calibration_data :=
  { AC1 := 408, AC2 := -72, AC3 := -14383, AC4 := 32741, AC5 := 32757, AC6 := 23153,
    B1 := 6190, B2 := 4, MB := -32768, MC := -8711, MD := 2868 }

/-- A calibration set of the kind read from a production sensor. -/
def sampleCal : bmp180_calibration_data :=
  { AC1 := 7911, AC2 := -934, AC3 := -14306, AC4 := 31567, AC5 := 25671, AC6 := 18974,
    B1 := 5498, B2 := 46, MB := -32768, MC := -11075, MD := 2432 }

/-- A bus on which every transfer succeeds: a calibration read fills the buffer
with `cal`, a 2-byte result read with `ut`, a 3-byte result read with `up`. -/
def scriptedClient (cal ut up : List Nat) : i2c_client where
  write_reply := fun _ _ _ => 0
  read_reply := fun _ reg len =>
    if reg = BMP180_REG_CALIBRATION_START then (len, cal)
    else if len = 2 then (2, ut) else (3, up)

/-- A bus on which every transfer fails with `-EIO`. -/
def deadClient : i2c_client where
  write_reply := fun _ _ _ => -5
  read_reply := fun _ _ _ => (-5, [])

/-- The user-space driver's globals after a calibration load of `cal`, before
the first acquisition. -/
def Userspace.stateWith (cal : bmp180_calibration_data) : Userspace.State :=
  { data_buffer := Userspace.initial_data_buffer, cal_data := cal,
    current_temperature := 0, current_pressure := 0 }

/-- A calibration block: the coefficients of `sampleCal`, but with the byte pair
`0x80 0x00` for AC4. -/
def sampleBlock : List Nat :=
  [0x1E, 0xE7, 0xFC, 0x5A, 0xC8, 0x1E, 0x80, 0x00, 0x64, 0x47, 0x4A, 0x1E,
   0x15, 0x7A, 0x00, 0x2E, 0x80, 0x00, 0xD4, 0xBD, 0x09, 0x80]

/-- A bus whose block reads report 5 bytes transferred and leave `sampleBlock`
in the buffer; writes succeed. -/
def shortClient : i2c_client where
  write_reply := fun _ _ _ => 0
  read_reply := fun _ _ _ => (5, sampleBlock)

/-- A bus on which the calibration block read succeeds with `sampleBlock` and
every other transfer fails with `-EIO`. -/
def calOnlyClient : i2c_client where
  write_reply := fun _ _ _ => -5
  read_reply := fun _ reg len =>
    if reg = BMP180_REG_CALIBRATION_START then (len, sampleBlock) else (-5, [])

/-- A registration in which every step succeeds. -/
def okRegistration : Registration :=
  { functionality := true, major_number := 240, class_error := none, device_error := none }

/-- The data sheet's calibration with AC4 = 0. -/
def zeroAC4Cal : bmp180_calibration_data := { datasheetCal with AC4 := 0 }

/-- The data sheet's calibration with AC4 = 1. -/
def unitAC4Cal : bmp180_calibration_data := { datasheetCal with AC4 := 1 }

/-! ## Theorems -/

/-- C1: on the data sheet's worked example (UT = 27898, UP = 23843 with the
data sheet's calibration) both copies of `bmp180_calculate_values` produce
temperature 150 and pressure 69964. -/
theorem C1_datasheet_example :
    Driver.bmp180_calculate_values datasheetCal 27898 23843 = some (150, 69964) ∧
    Userspace.bmp180_calculate_values datasheetCal 27898 23843 = some (150, 69964) := by
  constructor <;> rfl

/-! ## Auxiliary facts on the integer conversions -/

theorem toS32_idem (x : Int) : toS32 (toS32 x) = toS32 x := by
  unfold toS32; omega

theorem toU32_idem (x : Int) : toU32 (toU32 x) = toU32 x := by
  unfold toU32; omega

theorem toU32_nonneg (x : Int) : 0 ≤ toU32 x := by unfold toU32; omega

theorem toU32_lt (x : Int) : toU32 x < 4294967296 := by unfold toU32; omega

theorem toU32_of_range {x : Int} (h0 : 0 ≤ x) (h1 : x < 4294967296) : toU32 x = x := by
  unfold toU32; omega

theorem toS32_of_range {x : Int} (h0 : -2147483648 ≤ x) (h1 : x ≤ 2147483647) :
    toS32 x = x := by
  unfold toS32; omega

theorem toS32_bounds (x : Int) : -2147483648 ≤ toS32 x ∧ toS32 x ≤ 2147483647 := by
  unfold toS32; omega

/-- The arithmetic shift is the floor division by a power of two. -/
theorem asr_eq_shr (a : Int) (n : Nat) : asr a n = Spec.shr a n := by
  unfold asr Spec.shr
  have h := Int.shiftRight_eq_div_pow a n
  simp only [Nat.cast_pow, Nat.cast_ofNat] at h
  exact h

/-- The logical shift of a non-negative value is the division by a power of two. -/
theorem lsr_eq_div {a : Int} (h : 0 ≤ a) (n : Nat) : lsr a n = a / 2 ^ n := by
  unfold lsr
  obtain ⟨k, rfl⟩ := Int.eq_ofNat_of_zero_le h
  simp [Nat.shiftRight_eq_div_pow]

/-- Step 10 of the specification on in-range unsigned operands, in the shape
the C code computes it. -/
theorem spec_p_eq {b4 b7 : Int} (h4 : 0 ≤ b4) (h4u : b4 < 4294967296) (h7 : 0 ≤ b7)
    (h7u : b7 < 4294967296) :
    Spec.p b7 b4 = if b4 = 0 then none else
      some (if b7 < 0x80000000 then toS32 ((toU32 (b7 * 2)).tdiv b4)
            else toS32 (toU32 ((b7.tdiv b4) * 2))) := by
  have e4 : toU32 b4 = b4 := toU32_of_range h4 h4u
  have e7 : toU32 b7 = b7 := toU32_of_range h7 h7u
  have e2 : toU32 2 = 2 := by decide
  unfold Spec.p Spec.udiv Spec.umul
  by_cases h0 : b4 = 0
  · subst h0
    simp [e4]
  · have hq0 : 0 ≤ b7 / b4 := Int.ediv_nonneg h7 h4
    have hq1 : b7 / b4 ≤ b7 := Int.ediv_le_self _ h7
    have eq : toU32 (b7 / b4) = b7 / b4 := toU32_of_range hq0 (by omega)
    simp only [e4, e7, e2, h0, if_false, toU32_idem, Option.map_some', eq,
      Int.tdiv_eq_ediv (toU32_nonneg _) h4, Int.tdiv_eq_ediv h7 h4]
    split <;> rfl

/-- The specification's `B4` is an unsigned 32-bit value. -/
theorem spec_B4_range (c : bmp180_calibration_data) (b6 : Int) :
    0 ≤ Spec.B4 c b6 ∧ Spec.B4 c b6 < 4294967296 := by
  unfold Spec.B4 Spec.ushr
  generalize Spec.umul c.AC4 (Spec.add (Spec.X3_step7 c b6) 32768) = z
  have h1 := toU32_nonneg z
  have h2 := toU32_lt z
  constructor
  · positivity
  · omega

/-- The specification's `B7` is an unsigned 32-bit value. -/
theorem spec_B7_range (c : bmp180_calibration_data) (b6 UP : Int) :
    0 ≤ Spec.B7 c b6 UP ∧ Spec.B7 c b6 UP < 4294967296 := by
  unfold Spec.B7 Spec.umul
  exact ⟨toU32_nonneg _, toU32_lt _⟩

theorem Driver_refines (c : bmp180_calibration_data) (UT UP : Int) :
    Driver.bmp180_calculate_values c UT UP =
      (Spec.B5 UT c.AC5 c.AC6 c.MC c.MD).bind fun b5 =>
        (Spec.p (Spec.B7 c (Spec.B6 b5) UP) (Spec.B4 c (Spec.B6 b5))).map fun p =>
          (Spec.shr (Spec.add b5 8) 4, Spec.pressure_of_p p) := by
  simp only [Driver.bmp180_calculate_values, asr_eq_shr]
  have hX1 : Spec.shr (toS32 (toS32 (UT - c.AC6) * c.AC5)) 15 = Spec.X1 UT c.AC6 c.AC5 := rfl
  rw [hX1]
  unfold Spec.B5 Spec.X2 Spec.div Spec.divisor2
  generalize Spec.X1 UT c.AC6 c.AC5 = X1
  simp only [Spec.add]
  by_cases hd : toS32 (X1 + c.MD) = 0
  · simp [hd]
  · simp only [hd, if_false, Option.map_some', Option.some_bind]
    have hB5 : toS32 (X1 + toS32 ((toS32 (c.MC * 2 ^ 11)).tdiv (toS32 (X1 + c.MD)))) =
      toS32 (X1 + toS32 ((Spec.shl c.MC 11).tdiv (toS32 (X1 + c.MD)))) := rfl
    rw [hB5]
    generalize toS32 (X1 + toS32 ((Spec.shl c.MC 11).tdiv (toS32 (X1 + c.MD)))) = B5
    have hB6 : toS32 (B5 - 4000) = Spec.B6 B5 := rfl
    rw [hB6]
    generalize Spec.B6 B5 = B6
    have hB4 : lsr (toU32 (toU32 c.AC4 * toU32 (toS32 (Spec.shr (toS32 (toS32
        (Spec.shr (toS32 (c.AC3 * B6)) 13 +
          Spec.shr (toS32 (c.B1 * Spec.shr (toS32 (B6 * B6)) 12)) 16) + 2)) 2 + 32768)))) 15 =
        Spec.B4 c B6 := by
      rw [lsr_eq_div (toU32_nonneg _)]
      simp only [Spec.B4, Spec.ushr, Spec.umul, Spec.X3_step7, Spec.add, Spec.mul, toU32_idem]
    have hB7 : toU32 (toU32 (toU32 UP - toU32 (toS32 ((toS32 (toS32 (toS32 (toS32 (c.AC1 * 4) +
        toS32 (Spec.shr (toS32 (c.B2 * Spec.shr (toS32 (B6 * B6)) 12)) 11 +
          Spec.shr (toS32 (c.AC2 * B6)) 11)) * 2 ^ 0) + 2)).tdiv 4))) *
        toU32 (Spec.shr 50000 0)) = Spec.B7 c B6 UP := by
      have h50 : Spec.shr 50000 0 = 50000 := by simp [Spec.shr]
      simp only [Spec.B7, Spec.umul, Spec.usub, Spec.B3, Spec.X3_step5, Spec.add, Spec.mul,
        toU32_idem, toS32_idem, pow_zero, mul_one, h50]
    rw [hB4, hB7]
    have hB4r := spec_B4_range c B6
    have hB7r := spec_B7_range c B6 UP
    generalize Spec.B4 c B6 = B4 at hB4r ⊢
    generalize Spec.B7 c B6 UP = B7 at hB7r ⊢
    rw [spec_p_eq hB4r.1 hB4r.2 hB7r.1 hB7r.2]
    by_cases h0 : B4 = 0
    · simp [h0]
    · simp only [h0, if_false, Option.map_some']
      rfl

/-- In-range values pass through the `(s32)` casts of the user-space copy. -/
theorem toS32_of_isS16 {x : Int} (h : isS16 x) : toS32 x = x := by
  unfold isS16 at h; exact toS32_of_range (by omega) (by omega)

theorem toS32_of_isU16 {x : Int} (h : isU16 x) : toS32 x = x := by
  unfold isU16 at h; exact toS32_of_range (by omega) (by omega)

/-- The temperature half of the user-space copy, in terms of the specification's
steps 1 to 3; the copy returns a result exactly when neither divisor is zero. -/
theorem Userspace_temperature (c : bmp180_calibration_data) (UT UP : Int)
    (hc : c.WellTyped) :
    (Userspace.bmp180_calculate_values c UT UP).map Prod.fst =
      (Spec.B5 UT c.AC5 c.AC6 c.MC c.MD).bind fun b5 =>
        if Spec.B4 c (Spec.B6 b5) = 0 then none else some (Spec.shr (Spec.add b5 8) 4) := by
  obtain ⟨h1, h2, h3, h4, h5, h6, h7, h8, h9, h10, h11⟩ := hc
  simp only [Userspace.bmp180_calculate_values, asr_eq_shr, toS32_of_isS16 h1,
    toS32_of_isS16 h2, toS32_of_isS16 h3, toS32_of_isU16 h5, toS32_of_isU16 h6,
    toS32_of_isS16 h7, toS32_of_isS16 h8, toS32_of_isS16 h10, toS32_of_isS16 h11]
  have hX1 : Spec.shr (toS32 (toS32 (UT - c.AC6) * c.AC5)) 15 = Spec.X1 UT c.AC6 c.AC5 := rfl
  rw [hX1]
  unfold Spec.B5 Spec.X2 Spec.div Spec.divisor2
  generalize Spec.X1 UT c.AC6 c.AC5 = X1
  simp only [Spec.add]
  by_cases hd : toS32 (X1 + c.MD) = 0
  · simp [hd]
  · simp only [hd, if_false, Option.map_some', Option.some_bind]
    have hB5 : toS32 (X1 + toS32 ((toS32 (c.MC * 2 ^ 11)).tdiv (toS32 (X1 + c.MD)))) =
      toS32 (X1 + toS32 ((Spec.shl c.MC 11).tdiv (toS32 (X1 + c.MD)))) := rfl
    rw [hB5]
    generalize toS32 (X1 + toS32 ((Spec.shl c.MC 11).tdiv (toS32 (X1 + c.MD)))) = B5
    have hB6 : toS32 (B5 - 4000) = Spec.B6 B5 := rfl
    rw [hB6]
    generalize Spec.B6 B5 = B6
    have hB4 : lsr (toU32 (toU32 c.AC4 * toU32 (toS32 (Spec.shr (toS32 (toS32
        (Spec.shr (toS32 (c.AC3 * B6)) 13 +
          Spec.shr (toS32 (c.B1 * Spec.shr (toS32 (B6 * B6)) 12)) 16) + 2)) 2 + 32768)))) 15 =
        Spec.B4 c B6 := by
      rw [lsr_eq_div (toU32_nonneg _)]
      simp only [Spec.B4, Spec.ushr, Spec.umul, Spec.X3_step7, Spec.add, Spec.mul, toU32_idem]
    rw [hB4]
    by_cases h0 : Spec.B4 c B6 = 0
    · simp [h0]
    · simp [h0]

/-- The temperature half of the kernel-log copy, in the same shape. -/
theorem Driver_temperature (c : bmp180_calibration_data) (UT UP : Int) :
    (Driver.bmp180_calculate_values c UT UP).map Prod.fst =
      (Spec.B5 UT c.AC5 c.AC6 c.MC c.MD).bind fun b5 =>
        if Spec.B4 c (Spec.B6 b5) = 0 then none else some (Spec.shr (Spec.add b5 8) 4) := by
  rw [Driver_refines]
  cases hb : Spec.B5 UT c.AC5 c.AC6 c.MC c.MD with
  | none => simp
  | some b5 =>
    simp only [Option.some_bind, Option.map_map]
    have h4 : 0 ≤ Spec.B4 c (Spec.B6 b5) ∧ Spec.B4 c (Spec.B6 b5) < 4294967296 :=
      spec_B4_range c _
    have h7 : 0 ≤ Spec.B7 c (Spec.B6 b5) UP ∧ Spec.B7 c (Spec.B6 b5) UP < 4294967296 :=
      spec_B7_range c _ _
    rw [spec_p_eq h4.1 h4.2 h7.1 h7.2]
    by_cases h0 : Spec.B4 c (Spec.B6 b5) = 0
    · simp [h0]
    · simp [h0]

/-- C3: when no divisor of the pipeline is zero, `bmp180_calculate_values` of
`bmp180_driver.c` returns a result whose pressure is the pressure of the
specification's steps 4 to 12 (on the `B5` of steps 1 to 3), evaluated with
32-bit wrapping, arithmetic shifts, truncating division and unsigned `B4`/`B7`. -/
theorem C3_driver_pressure_refines_spec (c : bmp180_calibration_data) (UT UP : Int)
    (h : Spec.NoZeroDivisor c UT) :
    ∃ t p, Driver.bmp180_calculate_values c UT UP = some (t, p) ∧
      Spec.pressure c UT UP = some p := by
  obtain ⟨_, b4, hb4, hne⟩ := h
  rw [Driver_refines]
  unfold Spec.pressure Spec.pressure_from_B5
  unfold Spec.divisor10 at hb4
  cases hb : Spec.B5 UT c.AC5 c.AC6 c.MC c.MD with
  | none => rw [hb] at hb4; simp at hb4
  | some b5 =>
    rw [hb] at hb4
    simp only [Option.map_some', Option.some.injEq] at hb4
    have h4 := spec_B4_range c (Spec.B6 b5)
    have h7 := spec_B7_range c (Spec.B6 b5) UP
    simp only [Option.some_bind]
    rw [spec_p_eq h4.1 h4.2 h7.1 h7.2, hb4]
    simp [hne]

/-- Witness of C3: the data sheet's worked example has no zero divisor. -/
theorem C3_driver_pressure_refines_spec_witness :
    Spec.NoZeroDivisor datasheetCal 27898 ∧
    ∃ t p, Driver.bmp180_calculate_values datasheetCal 27898 23843 = some (t, p) ∧
      Spec.pressure datasheetCal 27898 23843 = some p :=
  have h : Spec.NoZeroDivisor datasheetCal 27898 := ⟨by decide, 33457, by rfl, by decide⟩
  ⟨h, C3_driver_pressure_refines_spec datasheetCal 27898 23843 h⟩

/-- C2 at a failing input: with the calibration `sampleCal`, UT = 25881 and
UP = 40000 no divisor is zero, the specification's pipeline (and the copy in
`bmp180_driver.c`) gives the pressure 99102, and `bmp180_calculate_values` of
the user-space copy gives 99099: its line 146 shifts the product
`B2 * (B6 * B6)` instead of multiplying `B2` by `(B6 * B6) >> 12`. -/
theorem C2_userspace_pressure_diverges :
    sampleCal.WellTyped ∧ Spec.NoZeroDivisor sampleCal 25881 ∧
    Spec.pressure sampleCal 25881 40000 = some 99102 ∧
    Driver.bmp180_calculate_values sampleCal 25881 40000 = some (158, 99102) ∧
    Userspace.bmp180_calculate_values sampleCal 25881 40000 = some (158, 99099) :=
  ⟨by decide, ⟨by decide, 32199, by rfl, by decide⟩, by rfl, by rfl, by rfl⟩

/-- The temperature of the results that the two copies return: the four
coefficients AC5, AC6, MC, MD and the raw sample UT alone determine it.  When `X1 + MD ≠ 0` the specification's steps 1 to 3
give a temperature `T = (B5 + 8) >> 4`, and for every calibration set with
these four coefficients and every UP, each copy of `bmp180_calculate_values`
that returns a result returns the temperature `T`; both copies do return a
result when the later divisor `B4` of the pressure stage is not zero. -/
theorem returned_temperature (UT AC5 AC6 MC MD : Int)
    (h2 : Spec.divisor2 UT AC5 AC6 MD ≠ 0) :
    ∃ T, Spec.temperature UT AC5 AC6 MC MD = some T ∧
      ∀ (c : bmp180_calibration_data) (UP : Int), c.WellTyped →
        c.AC5 = AC5 → c.AC6 = AC6 → c.MC = MC → c.MD = MD →
        (∀ t p, Driver.bmp180_calculate_values c UT UP = some (t, p) → t = T) ∧
        (∀ t p, Userspace.bmp180_calculate_values c UT UP = some (t, p) → t = T) ∧
        (Spec.divisor10 c UT ≠ some 0 →
          (∃ p, Driver.bmp180_calculate_values c UT UP = some (T, p)) ∧
          (∃ p, Userspace.bmp180_calculate_values c UT UP = some (T, p))) := by
  have hB5 : Spec.B5 UT AC5 AC6 MC MD =
      some (Spec.add (Spec.X1 UT AC6 AC5)
        (toS32 ((Spec.shl MC 11).tdiv (Spec.divisor2 UT AC5 AC6 MD)))) := by
    simp [Spec.B5, Spec.X2, Spec.div, h2]
  generalize Spec.add (Spec.X1 UT AC6 AC5)
    (toS32 ((Spec.shl MC 11).tdiv (Spec.divisor2 UT AC5 AC6 MD))) = b5 at hB5
  refine ⟨Spec.shr (Spec.add b5 8) 4, by simp [Spec.temperature, hB5], ?_⟩
  intro c UP hc e5 e6 eC eD
  subst e5 e6 eC eD
  have hD := Driver_temperature c UT UP
  have hU := Userspace_temperature c UT UP hc
  rw [hB5] at hD hU
  simp only [Option.some_bind] at hD hU
  have h10 : Spec.divisor10 c UT = some (Spec.B4 c (Spec.B6 b5)) := by
    simp [Spec.divisor10, hB5]
  refine ⟨?_, ?_, ?_⟩
  · intro t p hp
    rw [hp] at hD
    by_cases h0 : Spec.B4 c (Spec.B6 b5) = 0
    · simp [h0] at hD
    · simpa [h0] using hD
  · intro t p hp
    rw [hp] at hU
    by_cases h0 : Spec.B4 c (Spec.B6 b5) = 0
    · simp [h0] at hU
    · simpa [h0] using hU
  · intro hne
    have h0 : Spec.B4 c (Spec.B6 b5) ≠ 0 := by
      intro h; apply hne; rw [h10, h]
    simp only [h0, if_false] at hD hU
    constructor
    · cases hr : Driver.bmp180_calculate_values c UT UP with
      | none => rw [hr] at hD; simp at hD
      | some r =>
        rw [hr] at hD
        simp only [Option.map_some', Option.some.injEq] at hD
        exact ⟨r.2, by rw [← hD]⟩
    · cases hr : Userspace.bmp180_calculate_values c UT UP with
      | none => rw [hr] at hU; simp at hU
      | some r =>
        rw [hr] at hU
        simp only [Option.map_some', Option.some.injEq] at hU
        exact ⟨r.2, by rw [← hU]⟩

/-- The staged body of the kernel-log copy is the body of that copy: a run
returns a pair exactly when the staged run reaches its end. -/
theorem Driver_staged_tie (c : bmp180_calibration_data) (UT UP : Int) :
    Driver.bmp180_calculate_values c UT UP =
      (Driver.Staged.bmp180_calculate_values c UT UP).bind fun r =>
        r.2.map fun p => (r.1, p) := by
  unfold Driver.bmp180_calculate_values Driver.Staged.bmp180_calculate_values
  simp only []
  split
  · rfl
  · split <;> rfl

/-- The staged body of the user-space copy is the body of that copy. -/
theorem Userspace_staged_tie (c : bmp180_calibration_data) (UT UP : Int) :
    Userspace.bmp180_calculate_values c UT UP =
      (Userspace.Staged.bmp180_calculate_values c UT UP).bind fun r =>
        r.2.map fun p => (r.1, p) := by
  unfold Userspace.bmp180_calculate_values Userspace.Staged.bmp180_calculate_values
  simp only []
  split
  · rfl
  · split <;> rfl

/-- The temperature of the kernel-log copy is the temperature of the
specification's steps 1 to 3, whatever the pressure stage does. -/
theorem Driver_staged_temperature (c : bmp180_calibration_data) (UT UP : Int) :
    (Driver.Staged.bmp180_calculate_values c UT UP).map Prod.fst =
      Spec.temperature UT c.AC5 c.AC6 c.MC c.MD := by
  simp only [Driver.Staged.bmp180_calculate_values, asr_eq_shr]
  have hX1 : Spec.shr (toS32 (toS32 (UT - c.AC6) * c.AC5)) 15 = Spec.X1 UT c.AC6 c.AC5 := rfl
  rw [hX1]
  unfold Spec.temperature Spec.B5 Spec.X2 Spec.div Spec.divisor2
  generalize Spec.X1 UT c.AC6 c.AC5 = X1
  simp only [Spec.add]
  by_cases hd : toS32 (X1 + c.MD) = 0
  · simp [hd]
  · simp only [hd, if_false, Option.map_some']
    split <;> rfl

/-- The temperature of the user-space copy is the temperature of the
specification's steps 1 to 3, whatever the pressure stage does. -/
theorem Userspace_staged_temperature (c : bmp180_calibration_data) (UT UP : Int)
    (hc : c.WellTyped) :
    (Userspace.Staged.bmp180_calculate_values c UT UP).map Prod.fst =
      Spec.temperature UT c.AC5 c.AC6 c.MC c.MD := by
  obtain ⟨h1, h2, h3, h4, h5, h6, h7, h8, h9, h10, h11⟩ := hc
  simp only [Userspace.Staged.bmp180_calculate_values, asr_eq_shr, toS32_of_isS16 h1,
    toS32_of_isS16 h2, toS32_of_isS16 h3, toS32_of_isU16 h5, toS32_of_isU16 h6,
    toS32_of_isS16 h7, toS32_of_isS16 h8, toS32_of_isS16 h10, toS32_of_isS16 h11]
  have hX1 : Spec.shr (toS32 (toS32 (UT - c.AC6) * c.AC5)) 15 = Spec.X1 UT c.AC6 c.AC5 := rfl
  rw [hX1]
  unfold Spec.temperature Spec.B5 Spec.X2 Spec.div Spec.divisor2
  generalize Spec.X1 UT c.AC6 c.AC5 = X1
  simp only [Spec.add]
  by_cases hd : toS32 (X1 + c.MD) = 0
  · simp [hd]
  · simp only [hd, if_false, Option.map_some']
    split <;> rfl

/-- A staged run whose temperature is known has that temperature first. -/
theorem staged_of_map_fst {r : Option (Int × Option Int)} {T : Int}
    (h : r.map Prod.fst = some T) : ∃ op, r = some (T, op) := by
  cases r with
  | none => simp at h
  | some v =>
    simp only [Option.map_some', Option.some.injEq] at h
    exact ⟨v.2, by rw [← h]⟩

/-- C4: the four coefficients AC5, AC6, MC, MD and the raw sample UT alone
determine the temperature.  When `X1 + MD ≠ 0` the specification's steps 1 to 3
give a temperature `T = (B5 + 8) >> 4`, and for every calibration set with
these four coefficients and every UP, each copy of `bmp180_calculate_values`
computes the temperature `T` (the value of `temperature`, stored in
`current_temperature` by the user-space copy), whether or not the later
division of the pressure stage has a zero divisor; the staged bodies are the
bodies of the two copies; every result a copy returns has the temperature `T`,
and both copies return a result when the divisor `B4` is not zero. -/
theorem C4_temperature_refines_spec (UT AC5 AC6 MC MD : Int)
    (h2 : Spec.divisor2 UT AC5 AC6 MD ≠ 0) :
    ∃ T, Spec.temperature UT AC5 AC6 MC MD = some T ∧
      ∀ (c : bmp180_calibration_data) (UP : Int), c.WellTyped →
        c.AC5 = AC5 → c.AC6 = AC6 → c.MC = MC → c.MD = MD →
        (∃ op, Driver.Staged.bmp180_calculate_values c UT UP = some (T, op)) ∧
        (∃ op, Userspace.Staged.bmp180_calculate_values c UT UP = some (T, op)) ∧
        (Driver.bmp180_calculate_values c UT UP =
          (Driver.Staged.bmp180_calculate_values c UT UP).bind fun r =>
            r.2.map fun p => (r.1, p)) ∧
        (Userspace.bmp180_calculate_values c UT UP =
          (Userspace.Staged.bmp180_calculate_values c UT UP).bind fun r =>
            r.2.map fun p => (r.1, p)) ∧
        (∀ t p, Driver.bmp180_calculate_values c UT UP = some (t, p) → t = T) ∧
        (∀ t p, Userspace.bmp180_calculate_values c UT UP = some (t, p) → t = T) ∧
        (Spec.divisor10 c UT ≠ some 0 →
          (∃ p, Driver.bmp180_calculate_values c UT UP = some (T, p)) ∧
          (∃ p, Userspace.bmp180_calculate_values c UT UP = some (T, p))) := by
  obtain ⟨T, hT, hres⟩ := returned_temperature UT AC5 AC6 MC MD h2
  refine ⟨T, hT, ?_⟩
  intro c UP hc e5 e6 eC eD
  have hold := hres c UP hc e5 e6 eC eD
  subst e5 e6 eC eD
  have hD := Driver_staged_temperature c UT UP
  have hU := Userspace_staged_temperature c UT UP hc
  rw [hT] at hD hU
  exact ⟨staged_of_map_fst hD, staged_of_map_fst hU, Driver_staged_tie c UT UP,
    Userspace_staged_tie c UT UP, hold.1, hold.2.1, hold.2.2⟩

/-- Witness of C4: the data sheet's worked example with AC4 = 0, where the
pressure stage divides by zero and the temperature is 150 all the same. -/
theorem C4_temperature_refines_spec_witness :
    Spec.divisor2 27898 32757 23153 2868 ≠ 0 ∧ zeroAC4Cal.WellTyped ∧
    Spec.divisor10 zeroAC4Cal 27898 = some 0 ∧
    Spec.temperature 27898 32757 23153 (-8711) 2868 = some 150 ∧
    ∃ T, Spec.temperature 27898 32757 23153 (-8711) 2868 = some T ∧
      (∃ op, Driver.Staged.bmp180_calculate_values zeroAC4Cal 27898 23843 = some (T, op)) ∧
      (∃ op, Userspace.Staged.bmp180_calculate_values zeroAC4Cal 27898 23843 = some (T, op)) :=
  ⟨by decide, by decide, by rfl, by rfl,
    (C4_temperature_refines_spec 27898 32757 23153 (-8711) 2868 (by decide)).elim
      fun T hT => ⟨T, hT.1, (hT.2 zeroAC4Cal 23843 (by decide) rfl rfl rfl rfl).1,
        (hT.2 zeroAC4Cal 23843 (by decide) rfl rfl rfl rfl).2.1⟩⟩


/-! ## Calibration decoding and raw acquisition -/

/-- The `int` value `(hi << 8) | lo` of two bytes. -/
theorem shl8_or (hi : Nat) {lo : Nat} (h : lo < 256) : (hi <<< 8) ||| lo = 256 * hi + lo := by
  rw [Nat.shiftLeft_eq, Nat.mul_comm]
  exact (Nat.mul_add_lt_is_or (show lo < 2 ^ 8 by omega) hi).symm

/-- A byte list read through `getD` yields bytes. -/
theorem getD_lt_256 {buf : List Nat} (h : ∀ b ∈ buf, b < 256) (i : Nat) :
    buf.getD i 0 < 256 := by
  by_cases hi : i < buf.length
  · rw [List.getD_eq_getElem _ _ hi]
    exact h _ (List.getElem_mem hi)
  · rw [List.getD_eq_default _ _ (by omega)]
    omega

theorem u8_at_eq {buf : List Nat} (h : ∀ b ∈ buf, b < 256) (i : Nat) :
    u8_at buf i = buf.getD i 0 := by
  unfold u8_at
  exact Nat.mod_eq_of_lt (getD_lt_256 h i)

/-- The conversion of a byte pair to `s16`. -/
theorem toS16_pair {buf : List Nat} (h : ∀ b ∈ buf, b < 256) (k : Nat) :
    toS16 (((u8_at buf (2 * k) <<< 8) ||| u8_at buf (2 * k + 1) : Nat) : Int) =
      Spec.signed16 (Spec.be16 buf k) := by
  have h0 := getD_lt_256 h (2 * k)
  have h1 := getD_lt_256 h (2 * k + 1)
  rw [u8_at_eq h, u8_at_eq h, shl8_or _ h1]
  unfold toS16 Spec.signed16 Spec.be16
  push_cast
  split <;> omega

/-- The conversion of a byte pair to `u16`. -/
theorem toU16_pair {buf : List Nat} (h : ∀ b ∈ buf, b < 256) (k : Nat) :
    toU16 (((u8_at buf (2 * k) <<< 8) ||| u8_at buf (2 * k + 1) : Nat) : Int) =
      Spec.be16 buf k := by
  have h0 := getD_lt_256 h (2 * k)
  have h1 := getD_lt_256 h (2 * k + 1)
  rw [u8_at_eq h, u8_at_eq h, shl8_or _ h1]
  unfold toU16 Spec.be16
  push_cast
  omega

theorem be16_range {buf : List Nat} (h : ∀ b ∈ buf, b < 256) (k : Nat) :
    0 ≤ Spec.be16 buf k ∧ Spec.be16 buf k ≤ 65535 := by
  have h0 := getD_lt_256 h (2 * k)
  have h1 := getD_lt_256 h (2 * k + 1)
  unfold Spec.be16
  omega

/-- C5: after a successful calibration read that filled the buffer with the
22 bytes `buf`, `bmp180_read_calibration_data` returns 0 and the `k`-th
coefficient (order AC1, AC2, AC3, AC4, AC5, AC6, B1, B2, MB, MC, MD) is the
big-endian value `256*buf[2k] + buf[2k+1]`, read as two's-complement signed
16-bit for AC1, AC2, AC3, B1, B2, MB, MC, MD and as unsigned for AC4, AC5, AC6;
AC4, AC5, AC6 lie in `0..65535`, and the pair `0x80 0x00` gives AC4 = 32768. -/
theorem C5_calibration_decoding (client : i2c_client) (st : Userspace.State)
    (tr : List BusOp) (n : Int) (buf : List Nat)
    (hr : client.read_reply tr 0xAA 22 = (n, buf)) (hok : 0 ≤ toS32 n)
    (hlen : buf.length = 22) (hb : ∀ b ∈ buf, b < 256) :
    (Userspace.bmp180_read_calibration_data client st tr).1 = 0 ∧
    (Userspace.bmp180_read_calibration_data client st tr).2.1.cal_data =
      { AC1 := Spec.signed16 (Spec.be16 buf 0), AC2 := Spec.signed16 (Spec.be16 buf 1),
        AC3 := Spec.signed16 (Spec.be16 buf 2), AC4 := Spec.be16 buf 3,
        AC5 := Spec.be16 buf 4, AC6 := Spec.be16 buf 5,
        B1 := Spec.signed16 (Spec.be16 buf 6), B2 := Spec.signed16 (Spec.be16 buf 7),
        MB := Spec.signed16 (Spec.be16 buf 8), MC := Spec.signed16 (Spec.be16 buf 9),
        MD := Spec.signed16 (Spec.be16 buf 10) } ∧
    (0 ≤ Spec.be16 buf 3 ∧ Spec.be16 buf 3 ≤ 65535) ∧
    (0 ≤ Spec.be16 buf 4 ∧ Spec.be16 buf 4 ≤ 65535) ∧
    (0 ≤ Spec.be16 buf 5 ∧ Spec.be16 buf 5 ≤ 65535) ∧
    (buf.getD 6 0 = 0x80 → buf.getD 7 0 = 0x00 →
      (Userspace.bmp180_read_calibration_data client st tr).2.1.cal_data.AC4 = 32768) := by
  have hlen22 : buf.length = 22 := hlen
  have hnot : ¬ toS32 n < 0 := by omega
  have hcal : (Userspace.bmp180_read_calibration_data client st tr).2.1.cal_data =
      { AC1 := Spec.signed16 (Spec.be16 buf 0), AC2 := Spec.signed16 (Spec.be16 buf 1),
        AC3 := Spec.signed16 (Spec.be16 buf 2), AC4 := Spec.be16 buf 3,
        AC5 := Spec.be16 buf 4, AC6 := Spec.be16 buf 5,
        B1 := Spec.signed16 (Spec.be16 buf 6), B2 := Spec.signed16 (Spec.be16 buf 7),
        MB := Spec.signed16 (Spec.be16 buf 8), MC := Spec.signed16 (Spec.be16 buf 9),
        MD := Spec.signed16 (Spec.be16 buf 10) } := by
    simp only [Userspace.bmp180_read_calibration_data, i2c_smbus_read_i2c_block_data,
      BMP180_REG_CALIBRATION_START, BMP180_CALIBRATION_DATA_LENGTH, hr, hnot, if_false]
    rw [← toS16_pair hb 0, ← toS16_pair hb 1, ← toS16_pair hb 2, ← toU16_pair hb 3,
      ← toU16_pair hb 4, ← toU16_pair hb 5, ← toS16_pair hb 6, ← toS16_pair hb 7,
      ← toS16_pair hb 8, ← toS16_pair hb 9, ← toS16_pair hb 10]
  refine ⟨?_, hcal, be16_range hb 3, be16_range hb 4, be16_range hb 5, ?_⟩
  · simp only [Userspace.bmp180_read_calibration_data, i2c_smbus_read_i2c_block_data,
      BMP180_REG_CALIBRATION_START, BMP180_CALIBRATION_DATA_LENGTH, hr, hnot, if_false]
  · intro h6 h7
    rw [hcal]
    show Spec.be16 buf 3 = 32768
    unfold Spec.be16
    rw [h6, h7]
    rfl

/-- Witness of C5: a block with the pair `0x80 0x00` for AC4. -/
theorem C5_calibration_decoding_witness :
    (scriptedClient sampleBlock [] []).read_reply [] 0xAA 22 = (22, sampleBlock) ∧
    0 ≤ toS32 22 ∧ sampleBlock.length = 22 ∧ (∀ b ∈ sampleBlock, b < 256) ∧
    (Userspace.bmp180_read_calibration_data (scriptedClient sampleBlock [] [])
      (Userspace.stateWith datasheetCal) []).2.1.cal_data =
      { sampleCal with AC4 := 32768 } :=
  ⟨rfl, by decide, rfl, by decide,
    (C5_calibration_decoding (scriptedClient sampleBlock [] []) (Userspace.stateWith datasheetCal)
      [] 22 sampleBlock rfl (by decide) rfl (by decide)).2.1.trans (by decide)⟩

/-- The raw temperature value is a 16-bit quantity. -/
theorem ut_value (b0 b1 : Nat) (h1 : b1 < 256) (h0 : b0 < 256) :
    toS32 (((b0 <<< 8) ||| b1 : Nat) : Int) = 256 * (b0 : Int) + b1 := by
  rw [shl8_or _ h1]
  push_cast
  exact toS32_of_range (by omega) (by omega)

theorem u8_at_lt (buf : List Nat) (i : Nat) : u8_at buf i < 256 := by
  unfold u8_at; exact Nat.mod_lt _ (by decide)

/-- The three outcomes of `bmp180_read_uncompensated_temperature`. -/
theorem read_ut_shape (client : i2c_client) (tr : List BusOp) :
    Userspace.bmp180_read_uncompensated_temperature client tr =
      (if Spec.tempWrite client tr < 0 then
        (Spec.tempWrite client tr, tr ++ [BusOp.write_byte_data 0xF4 0x2E])
      else if Spec.tempRead client tr < 0 then
        (Spec.tempRead client tr, Spec.afterRead tr 0x2E 2)
      else
        (256 * (u8_at (client.read_reply (Spec.afterCommand tr 0x2E) 0xF6 2).2 0 : Int) +
            (u8_at (client.read_reply (Spec.afterCommand tr 0x2E) 0xF6 2).2 1 : Int),
          Spec.afterRead tr 0x2E 2)) := by
  simp only [Userspace.bmp180_read_uncompensated_temperature, i2c_smbus_write_byte_data,
    i2c_smbus_read_i2c_block_data, msleep, BMP180_REG_CONTROL, BMP180_REG_RESULT,
    BMP180_COMMAND_TEMPERATURE, Spec.tempWrite, Spec.tempRead, Spec.afterCommand,
    Spec.afterRead, List.append_assoc, List.cons_append, List.nil_append,
    ut_value _ _ (u8_at_lt _ 1) (u8_at_lt _ 0)]

/-- C9: `bmp180_read_uncompensated_temperature` first writes 0x2E to register
0xF4; if the write fails it returns that error and the trace holds the write
alone; otherwise it waits, reads 2 bytes `b0`, `b1` from register 0xF6 and
returns the read's error if the read fails, else `256*b0 + b1`, a value in
`0..65535`. -/
theorem C9_read_uncompensated_temperature (client : i2c_client) (tr : List BusOp) :
    Userspace.bmp180_read_uncompensated_temperature client tr =
      (if Spec.tempWrite client tr < 0 then
        (Spec.tempWrite client tr, tr ++ [BusOp.write_byte_data 0xF4 0x2E])
      else if Spec.tempRead client tr < 0 then
        (Spec.tempRead client tr, Spec.afterRead tr 0x2E 2)
      else
        (256 * (u8_at (client.read_reply (Spec.afterCommand tr 0x2E) 0xF6 2).2 0 : Int) +
            (u8_at (client.read_reply (Spec.afterCommand tr 0x2E) 0xF6 2).2 1 : Int),
          Spec.afterRead tr 0x2E 2)) ∧
    0 ≤ 256 * (u8_at (client.read_reply (Spec.afterCommand tr 0x2E) 0xF6 2).2 0 : Int) +
        (u8_at (client.read_reply (Spec.afterCommand tr 0x2E) 0xF6 2).2 1 : Int) ∧
    256 * (u8_at (client.read_reply (Spec.afterCommand tr 0x2E) 0xF6 2).2 0 : Int) +
        (u8_at (client.read_reply (Spec.afterCommand tr 0x2E) 0xF6 2).2 1 : Int) ≤ 65535 := by
  have h0 := u8_at_lt (client.read_reply (Spec.afterCommand tr 0x2E) 0xF6 2).2 0
  have h1 := u8_at_lt (client.read_reply (Spec.afterCommand tr 0x2E) 0xF6 2).2 1
  exact ⟨read_ut_shape client tr, by omega, by omega⟩

/-- The 24-bit value `(b0 << 16) | (b1 << 8) | b2` of three bytes. -/
theorem up_value (b0 b1 b2 : Nat) (h1 : b1 < 256) (h2 : b2 < 256) :
    (((b0 <<< 16) ||| (b1 <<< 8)) ||| b2 : Nat) = 65536 * b0 + 256 * b1 + b2 := by
  have e1 : (b0 <<< 16) ||| (b1 <<< 8) = 65536 * b0 + 256 * b1 := by
    rw [Nat.shiftLeft_eq, Nat.shiftLeft_eq, Nat.mul_comm b0, Nat.mul_comm b1]
    exact (Nat.mul_add_lt_is_or (show 2 ^ 8 * b1 < 2 ^ 16 by omega) b0).symm
  have e2 : 65536 * b0 + 256 * b1 = 2 ^ 8 * (256 * b0 + b1) := by omega
  rw [e1, e2]
  exact (Nat.mul_add_lt_is_or (show b2 < 2 ^ 8 by omega) (256 * b0 + b1)).symm

/-- The 24-bit value fits the `s32` it is stored in. -/
theorem up_s32 (b0 b1 b2 : Nat) (h0 : b0 < 256) (h1 : b1 < 256) (h2 : b2 < 256) :
    toS32 ((((b0 <<< 16) ||| (b1 <<< 8)) ||| b2 : Nat) : Int) =
      65536 * (b0 : Int) + 256 * (b1 : Int) + (b2 : Int) := by
  rw [up_value _ _ _ h1 h2]
  push_cast
  exact toS32_of_range (by omega) (by omega)

/-- The three outcomes of `bmp180_read_uncompensated_pressure`. -/
theorem read_up_shape (client : i2c_client) (tr : List BusOp) :
    Userspace.bmp180_read_uncompensated_pressure client tr =
      (if toS32 (client.write_reply tr 0xF4 0x34) < 0 then
        (toS32 (client.write_reply tr 0xF4 0x34), tr ++ [BusOp.write_byte_data 0xF4 0x34])
      else if toS32 (client.read_reply (Spec.afterCommand tr 0x34) 0xF6 3).1 < 0 then
        (toS32 (client.read_reply (Spec.afterCommand tr 0x34) 0xF6 3).1, Spec.afterRead tr 0x34 3)
      else
        ((65536 * (u8_at (client.read_reply (Spec.afterCommand tr 0x34) 0xF6 3).2 0 : Int) +
            256 * (u8_at (client.read_reply (Spec.afterCommand tr 0x34) 0xF6 3).2 1 : Int) +
            (u8_at (client.read_reply (Spec.afterCommand tr 0x34) 0xF6 3).2 2 : Int)) / 2 ^ 8,
          Spec.afterRead tr 0x34 3)) := by
  have h0 := u8_at_lt (client.read_reply (tr ++ [BusOp.write_byte_data 244 52, BusOp.msleep 5])
    246 3).2 0
  have h1 := u8_at_lt (client.read_reply (tr ++ [BusOp.write_byte_data 244 52, BusOp.msleep 5])
    246 3).2 1
  have h2 := u8_at_lt (client.read_reply (tr ++ [BusOp.write_byte_data 244 52, BusOp.msleep 5])
    246 3).2 2
  simp only [Userspace.bmp180_read_uncompensated_pressure, i2c_smbus_write_byte_data,
    i2c_smbus_read_i2c_block_data, msleep, BMP180_REG_CONTROL, BMP180_REG_RESULT,
    BMP180_COMMAND_PRESSURE, Spec.afterRead, Spec.afterCommand, List.append_assoc,
    List.cons_append, List.nil_append, up_s32 _ _ _ h0 h1 h2, asr_eq_shr, Spec.shr]

/-- C10: after a successful pressure acquisition (command 0x34 written to
register 0xF4, 3 bytes `b0`, `b1`, `b2` read from register 0xF6)
`bmp180_read_uncompensated_pressure` returns the 24-bit big-endian value
divided by `2^8`, which is `256*b0 + b1`: a value in `0..65535` in which `b2`
does not occur. -/
theorem C10_read_uncompensated_pressure (client : i2c_client) (tr : List BusOp) (n : Int)
    (buf : List Nat) (hw : 0 ≤ toS32 (client.write_reply tr 0xF4 0x34))
    (hr : client.read_reply (Spec.afterCommand tr 0x34) 0xF6 3 = (n, buf))
    (hn : 0 ≤ toS32 n) :
    (Userspace.bmp180_read_uncompensated_pressure client tr).2 = Spec.afterRead tr 0x34 3 ∧
    (Userspace.bmp180_read_uncompensated_pressure client tr).1 =
      (65536 * (u8_at buf 0 : Int) + 256 * (u8_at buf 1 : Int) + (u8_at buf 2 : Int)) / 2 ^ 8 ∧
    (Userspace.bmp180_read_uncompensated_pressure client tr).1 =
      256 * (u8_at buf 0 : Int) + (u8_at buf 1 : Int) ∧
    0 ≤ (Userspace.bmp180_read_uncompensated_pressure client tr).1 ∧
    (Userspace.bmp180_read_uncompensated_pressure client tr).1 ≤ 65535 := by
  have h0 := u8_at_lt buf 0
  have h1 := u8_at_lt buf 1
  have h2 := u8_at_lt buf 2
  rw [read_up_shape, hr, if_neg (by omega), if_neg (by simpa using hn)]
  refine ⟨rfl, rfl, ?_, ?_, ?_⟩ <;> simp only <;> omega

/-- Witness of C10: the result bytes `0x9C 0x40 0x7F` give UP = 40000. -/
theorem C10_read_uncompensated_pressure_witness :
    0 ≤ toS32 ((scriptedClient [] [] [0x9C, 0x40, 0x7F]).write_reply [] 0xF4 0x34) ∧
    (scriptedClient [] [] [0x9C, 0x40, 0x7F]).read_reply (Spec.afterCommand [] 0x34) 0xF6 3 =
      (3, [0x9C, 0x40, 0x7F]) ∧
    0 ≤ toS32 3 ∧
    (Userspace.bmp180_read_uncompensated_pressure (scriptedClient [] [] [0x9C, 0x40, 0x7F]) []).1 =
      40000 :=
  ⟨by decide, rfl, by decide,
    (C10_read_uncompensated_pressure (scriptedClient [] [] [0x9C, 0x40, 0x7F]) [] 3
      [0x9C, 0x40, 0x7F] (by decide) rfl (by decide)).2.2.1.trans (by decide)⟩

/-! ## Failed acquisitions leave the cache alone -/

/-- C6: when one of the four acquisition bus steps fails, `bmp180_read_data`
returns a negative code and the globals `data_buffer`, `current_temperature`,
`current_pressure` (the whole state) are as before; from the initial buffer the
text stays `"No data\n"`. -/
theorem C6_failed_acquisition_keeps_cache (client : i2c_client) (st : Userspace.State)
    (tr : List BusOp) (h : Spec.AcquisitionFails client tr) :
    (∃ ret tr', Userspace.bmp180_read_data client st tr = some (ret, st, tr') ∧ ret < 0) ∧
    (st.data_buffer = Userspace.initial_data_buffer →
      ∃ ret st' tr', Userspace.bmp180_read_data client st tr = some (ret, st', tr') ∧
        cstring st'.data_buffer = bytes "No data\n") := by
  have key : ∃ ret tr', Userspace.bmp180_read_data client st tr = some (ret, st, tr') ∧
      ret < 0 := by
    unfold Userspace.bmp180_read_data
    rw [read_ut_shape]
    rcases h with h | ⟨h1, h2⟩ | ⟨h1, h2, h3⟩ | ⟨h1, h2, h3, h4⟩
    · simp only [h, if_true]
      exact ⟨_, _, rfl, h⟩
    · simp only [if_neg (not_lt.mpr h1), h2, if_true]
      exact ⟨_, _, rfl, h2⟩
    · have hu0 := u8_at_lt (client.read_reply (Spec.afterCommand tr 0x2E) 0xF6 2).2 0
      have hu1 := u8_at_lt (client.read_reply (Spec.afterCommand tr 0x2E) 0xF6 2).2 1
      simp only [if_neg (not_lt.mpr h1), if_neg (not_lt.mpr h2)]
      rw [if_neg (by omega), read_up_shape]
      have h3' : toS32 (client.write_reply (Spec.afterRead tr 0x2E 2) 0xF4 0x34) < 0 := h3
      simp only [h3', if_true]
      exact ⟨_, _, rfl, h3'⟩
    · have hu0 := u8_at_lt (client.read_reply (Spec.afterCommand tr 0x2E) 0xF6 2).2 0
      have hu1 := u8_at_lt (client.read_reply (Spec.afterCommand tr 0x2E) 0xF6 2).2 1
      simp only [if_neg (not_lt.mpr h1), if_neg (not_lt.mpr h2)]
      rw [if_neg (by omega), read_up_shape]
      have h3' : ¬ toS32 (client.write_reply (Spec.afterRead tr 0x2E 2) 0xF4 0x34) < 0 :=
        not_lt.mpr h3
      have h4' : toS32 (client.read_reply (Spec.afterCommand (Spec.afterRead tr 0x2E 2) 0x34)
          0xF6 3).1 < 0 := h4
      simp only [h3', if_false, h4', if_true]
      exact ⟨_, _, rfl, h4'⟩
  refine ⟨key, ?_⟩
  intro hinit
  obtain ⟨ret, tr', hrun, _⟩ := key
  refine ⟨ret, st, tr', hrun, ?_⟩
  rw [hinit]
  decide

/-- Witness of C6: a bus on which every transfer fails, from the initial state. -/
theorem C6_failed_acquisition_keeps_cache_witness :
    Spec.AcquisitionFails deadClient [] ∧
    ∃ ret tr', Userspace.bmp180_read_data deadClient (Userspace.stateWith sampleCal) [] =
      some (ret, Userspace.stateWith sampleCal, tr') ∧ ret < 0 :=
  ⟨by decide,
    (C6_failed_acquisition_keeps_cache deadClient (Userspace.stateWith sampleCal) []
      (by decide)).1⟩

/-! ## Chunked reads of the cached text -/

theorem strlen_le_length (buf : List Nat) : strlen buf ≤ buf.length :=
  (List.takeWhile_sublist _).length_le

theorem cstring_length (buf : List Nat) : (cstring buf).length = strlen buf := rfl

/-- A chunk cut out of an array that starts with the text `s` is a chunk of `s`. -/
theorem take_drop_prefix (s rest : List Nat) (off c : Nat) (h : off < s.length) :
    ((s ++ rest).drop off).take (min c (s.length - off)) = (s.drop off).take c := by
  rw [List.drop_append_of_le_length (by omega)]
  rw [List.take_append_of_le_length (by rw [List.length_drop]; omega)]
  by_cases hc : c ≤ s.length - off
  · rw [Nat.min_eq_left hc]
  · rw [Nat.min_eq_right (by omega)]
    rw [List.take_of_length_le (by rw [List.length_drop]),
      List.take_of_length_le (by rw [List.length_drop]; omega)]

theorem take_drop_cstring (buf : List Nat) (off c : Nat) (h : off < strlen buf) :
    (buf.drop off).take (min c (strlen buf - off)) = ((cstring buf).drop off).take c := by
  have e : buf.drop off = (cstring buf ++ buf.dropWhile fun b => b ≠ 0).drop off := by
    rw [cstring, List.takeWhile_append_dropWhile]
  rw [e, ← cstring_length]
  exact take_drop_prefix _ _ _ _ (by rw [cstring_length]; exact h)

/-- One `bmp180_read` call at an offset before the end of the text. -/
theorem bmp180_read_inside (st : Userspace.State) (w c off : Nat)
    (hbuf : st.data_buffer.length = BUFFER_SIZE) (hc64 : c < 2 ^ 64) (hw : c ≤ w)
    (hoff : off < strlen st.data_buffer) :
    Userspace.bmp180_read st w c off =
      ⟨(min c (strlen st.data_buffer - off) : Nat),
        (off : Int) + (min c (strlen st.data_buffer - off) : Nat),
        ((cstring st.data_buffer).drop off).take c⟩ := by
  have hL : strlen st.data_buffer ≤ 256 := by
    have := strlen_le_length st.data_buffer
    rw [hbuf] at this; exact this
  have hlen : toS64 (strlen st.data_buffer : Int) = strlen st.data_buffer := by
    unfold toS64; omega
  have hd : toU64 (toS64 ((strlen st.data_buffer : Int) - off)) =
      ((strlen st.data_buffer - off : Nat) : Int) := by
    unfold toU64 toS64; omega
  have hcu : toU64 (c : Int) = c := by unfold toU64; omega
  have hcount : (if toU64 (c : Int) > toU64 (toS64 ((strlen st.data_buffer : Int) - off))
      then toU64 (toS64 ((strlen st.data_buffer : Int) - off)) else toU64 (c : Int)) =
      ((min c (strlen st.data_buffer - off) : Nat) : Int) := by
    rw [hd, hcu]
    split <;> omega
  have hnot : ¬ ((off : Int) ≥ strlen st.data_buffer) := by omega
  unfold Userspace.bmp180_read
  simp only [hlen, hnot, if_false, hcount, Int.toNat_ofNat, copy_to_user]
  have hm : min (min c (strlen st.data_buffer - off)) w = min c (strlen st.data_buffer - off) := by
    omega
  have hz : ¬ (min c (strlen st.data_buffer - off) -
      min (min c (strlen st.data_buffer - off)) w ≠ 0) := by omega
  have hmle : min c (strlen st.data_buffer - off) ≤ 256 := by omega
  have hoffle : off ≤ 256 := by omega
  have e1 : ∀ m : Nat, m ≤ 256 → toS64 (m : Int) = m := by
    intro m hm'
    unfold toS64; omega
  have e2 : ∀ m k : Nat, m ≤ 256 → k ≤ 256 → toS64 (toU64 (k : Int) + (m : Int)) = (k : Int) + m := by
    intro m k hm' hk'
    unfold toS64 toU64; omega
  rw [if_neg hz, hm, take_drop_cstring _ _ _ hoff, e1 _ hmle, e2 _ _ hmle hoffle]

/-- One `bmp180_read` call at an offset at or past the end of the text. -/
theorem bmp180_read_outside (st : Userspace.State) (w c : Nat) (off : Int)
    (hbuf : st.data_buffer.length = BUFFER_SIZE) (hoff : (strlen st.data_buffer : Int) ≤ off) :
    Userspace.bmp180_read st w c off = ⟨0, off, []⟩ := by
  have hL : strlen st.data_buffer ≤ 256 := by
    have := strlen_le_length st.data_buffer
    rw [hbuf] at this; exact this
  have hlen : toS64 (strlen st.data_buffer : Int) = strlen st.data_buffer := by
    unfold toS64; omega
  unfold Userspace.bmp180_read
  simp only [hlen, ge_iff_le, hoff, if_true]

/-- Two successive chunks of a list join to one longer chunk. -/
theorem take_append_take_drop (t : List Nat) (c m : Nat) :
    t.take c ++ (t.drop (min c t.length)).take m = t.take (c + m) := by
  by_cases h : c ≤ t.length
  · rw [Nat.min_eq_left h, List.take_add]
  · rw [Nat.min_eq_right (by omega), List.drop_length, List.take_nil, List.append_nil,
      List.take_of_length_le (by omega), List.take_of_length_le (by omega)]

/-- The loop of `n` reads started at an offset `off` inside the text. -/
theorem read_repeat_from (st : Userspace.State) (w c : Nat)
    (hbuf : st.data_buffer.length = BUFFER_SIZE) (hc64 : c < 2 ^ 64) (hw : c ≤ w) :
    ∀ (n off : Nat), off ≤ strlen st.data_buffer →
      ((Userspace.read_repeat st w c n off).1.map Userspace.ReadResult.copied).flatten =
        ((cstring st.data_buffer).drop off).take (n * c) ∧
      (Userspace.read_repeat st w c n off).2 =
        ((min (off + n * c) (strlen st.data_buffer) : Nat) : Int) := by
  intro n
  induction n with
  | zero =>
    intro off hoff
    simp [Userspace.read_repeat, Nat.min_eq_left hoff]
  | succ n ih =>
    intro off hoff
    by_cases hin : off < strlen st.data_buffer
    · have hstep := bmp180_read_inside st w c off hbuf hc64 hw hin
      have hnext : (off : Int) + ((min c (strlen st.data_buffer - off) : Nat) : Int) =
          ((off + min c (strlen st.data_buffer - off) : Nat) : Int) := by push_cast; rfl
      obtain ⟨ih1, ih2⟩ := ih (off + min c (strlen st.data_buffer - off)) (by omega)
      simp only [Userspace.read_repeat, hstep, hnext, List.map_cons, List.flatten_cons, ih1, ih2]
      constructor
      · have hlen : ((cstring st.data_buffer).drop off).length = strlen st.data_buffer - off := by
          rw [List.length_drop, cstring_length]
        have := take_append_take_drop ((cstring st.data_buffer).drop off) c (n * c)
        rw [hlen, List.drop_drop] at this
        have e : (n + 1) * c = c + n * c := by rw [Nat.succ_mul]; omega
        rw [e]
        exact this
      · have e : (off + min c (strlen st.data_buffer - off) + n * c) ⊓ strlen st.data_buffer =
            (off + (n + 1) * c) ⊓ strlen st.data_buffer := by
          rw [Nat.succ_mul]; omega
        rw [e]
    · have hoffeq : off = strlen st.data_buffer := by omega
      have hstep := bmp180_read_outside st w c off hbuf (by omega)
      obtain ⟨ih1, ih2⟩ := ih off hoff
      simp only [Userspace.read_repeat, hstep, List.map_cons, List.flatten_cons, ih1, ih2,
        List.nil_append]
      constructor
      · rw [List.take_of_length_le, List.take_of_length_le] <;>
          rw [List.length_drop, cstring_length] <;> omega
      · have e : (off + n * c) ⊓ strlen st.data_buffer =
            (off + (n + 1) * c) ⊓ strlen st.data_buffer := by
          rw [Nat.succ_mul]; omega
        rw [e]

/-- C7: for a chunk size `c ≥ 1` and a user buffer with room for `c` bytes,
every `bmp180_read` call at an offset `off` before the end of the cached text
`s` (length `L`) returns `min(c, L - off)`, copies the bytes of `s` from `off`
and advances the offset by that amount; every call at an offset `≥ L` returns
0, copies nothing and leaves the offset; so after `n` calls from offset 0 the
chunks joined are the first `n*c` bytes of `s`, the offset is
`min(n*c, L) ≤ L`, and once `n*c ≥ L` the chunks joined are exactly `s`. -/
theorem C7_read_chunks_reassemble (st : Userspace.State) (w c : Nat)
    (hbuf : st.data_buffer.length = BUFFER_SIZE) (hc : 1 ≤ c) (hc64 : c < 2 ^ 64)
    (hw : c ≤ w) :
    (∀ off : Nat, off < (cstring st.data_buffer).length →
      Userspace.bmp180_read st w c off =
        ⟨(min c ((cstring st.data_buffer).length - off) : Nat),
          (off : Int) + (min c ((cstring st.data_buffer).length - off) : Nat),
          ((cstring st.data_buffer).drop off).take c⟩ ∧
      (((cstring st.data_buffer).drop off).take c).length =
        min c ((cstring st.data_buffer).length - off)) ∧
    (∀ off : Int, ((cstring st.data_buffer).length : Int) ≤ off →
      Userspace.bmp180_read st w c off = ⟨0, off, []⟩) ∧
    (∀ n : Nat,
      ((Userspace.read_repeat st w c n 0).1.map Userspace.ReadResult.copied).flatten =
        (cstring st.data_buffer).take (n * c) ∧
      (Userspace.read_repeat st w c n 0).2 =
        ((min (n * c) (cstring st.data_buffer).length : Nat) : Int) ∧
      (Userspace.read_repeat st w c n 0).2 ≤ ((cstring st.data_buffer).length : Int)) ∧
    (∀ n : Nat, (cstring st.data_buffer).length ≤ n * c →
      ((Userspace.read_repeat st w c n 0).1.map Userspace.ReadResult.copied).flatten =
        cstring st.data_buffer) ∧
    (∃ n : Nat, (cstring st.data_buffer).length ≤ n * c) := by
  have hc1 : 1 ≤ c := hc
  refine ⟨?_, ?_, ?_, ?_, ?_⟩
  · intro off hoff
    rw [cstring_length] at hoff ⊢
    refine ⟨bmp180_read_inside st w c off hbuf hc64 hw hoff, ?_⟩
    rw [List.length_take, List.length_drop, cstring_length]
  · intro off hoff
    rw [cstring_length] at hoff
    exact bmp180_read_outside st w c off hbuf hoff
  · intro n
    obtain ⟨h1, h2⟩ := read_repeat_from st w c hbuf hc64 hw n 0 (Nat.zero_le _)
    rw [List.drop_zero, Nat.cast_zero] at h1
    rw [Nat.zero_add, Nat.cast_zero] at h2
    refine ⟨h1, ?_, ?_⟩
    · rw [cstring_length]; exact h2
    · rw [h2, cstring_length]
      exact_mod_cast Nat.min_le_right _ _
  · intro n hn
    obtain ⟨h1, _⟩ := read_repeat_from st w c hbuf hc64 hw n 0 (Nat.zero_le _)
    rw [List.drop_zero, Nat.cast_zero] at h1
    rw [h1, List.take_of_length_le hn]
  · exact ⟨(cstring st.data_buffer).length, Nat.le_mul_of_pos_right _ hc1⟩

set_option maxRecDepth 4000 in
/-- Witness of C7: the initial text `"No data\n"` (8 bytes) read in chunks of 3. -/
theorem C7_read_chunks_reassemble_witness :
    (Userspace.stateWith sampleCal).data_buffer.length = BUFFER_SIZE ∧ 1 ≤ 3 ∧ 3 < 2 ^ 64 ∧
    3 ≤ 3 ∧ (cstring (Userspace.stateWith sampleCal).data_buffer).length ≤ 3 * 3 ∧
    ((Userspace.read_repeat (Userspace.stateWith sampleCal) 3 3 3 0).1.map
        Userspace.ReadResult.copied).flatten =
      cstring (Userspace.stateWith sampleCal).data_buffer :=
  ⟨by decide, by decide, by norm_num, by decide, by decide,
    (C7_read_chunks_reassemble (Userspace.stateWith sampleCal) 3 3 (by decide) (by decide)
      (by norm_num) (by decide)).2.2.2.1 3 (by decide)⟩

/-! ## The rendered text -/

set_option maxRecDepth 100000 in
/-- C8 at a failing input: with the calibration `sampleCal`, the result bytes
`0x5C 0x66` (UT = 23654) and `0x9C 0x40 0x00` (UP = 40000) every bus step
succeeds, the temperature is -3 (that is -0.3 °C), and the text
`bmp180_read_data` caches is `"Temperature: 0.-3 °C\nPressure: 94726 Pa\n"`:
after the point stands `-3`, not one digit. -/
theorem C8_negative_temperature_text :
    (Userspace.bmp180_read_data (scriptedClient [] [0x5C, 0x66] [0x9C, 0x40, 0x00])
        (Userspace.stateWith sampleCal) []).map
      (fun r => (r.1, r.2.1.current_temperature, r.2.1.current_pressure,
        cstring r.2.1.data_buffer)) =
      some (0, -3, 94726, bytes "Temperature: 0.-3 °C\nPressure: 94726 Pa\n") := by
  decide

/-! ## The acquisition cycle, case by case -/

theorem Driver_read_ut_eq (client : i2c_client) (tr : List BusOp) :
    Driver.bmp180_read_uncompensated_temperature client tr =
      Userspace.bmp180_read_uncompensated_temperature client tr := rfl

theorem Driver_read_up_eq (client : i2c_client) (tr : List BusOp) :
    Driver.bmp180_read_uncompensated_pressure client tr =
      Userspace.bmp180_read_uncompensated_pressure client tr := rfl

theorem rawUT_range (client : i2c_client) (tr : List BusOp) :
    0 ≤ Spec.rawUT client tr ∧ Spec.rawUT client tr ≤ 65535 := by
  have h0 := u8_at_lt (client.read_reply (Spec.afterCommand tr 0x2E) 0xF6 2).2 0
  have h1 := u8_at_lt (client.read_reply (Spec.afterCommand tr 0x2E) 0xF6 2).2 1
  unfold Spec.rawUT
  omega

theorem rawUP_range (client : i2c_client) (tr : List BusOp) :
    0 ≤ Spec.rawUP client tr ∧ Spec.rawUP client tr ≤ 65535 := by
  have h0 := u8_at_lt (client.read_reply (Spec.afterCommand (Spec.afterRead tr 0x2E 2) 0x34)
    0xF6 3).2 0
  have h1 := u8_at_lt (client.read_reply (Spec.afterCommand (Spec.afterRead tr 0x2E 2) 0x34)
    0xF6 3).2 1
  unfold Spec.rawUP
  omega

/-- The temperature read in terms of the bus replies. -/
theorem read_ut_cases (client : i2c_client) (tr : List BusOp) :
    Userspace.bmp180_read_uncompensated_temperature client tr =
      (if Spec.tempWrite client tr < 0 then
        (Spec.tempWrite client tr, tr ++ [BusOp.write_byte_data 0xF4 0x2E])
      else if Spec.tempRead client tr < 0 then
        (Spec.tempRead client tr, Spec.afterRead tr 0x2E 2)
      else (Spec.rawUT client tr, Spec.afterRead tr 0x2E 2)) :=
  read_ut_shape client tr

/-- The pressure read that follows a successful temperature read, in terms of
the bus replies. -/
theorem read_up_cases (client : i2c_client) (tr : List BusOp) :
    Userspace.bmp180_read_uncompensated_pressure client (Spec.afterRead tr 0x2E 2) =
      (if Spec.pressWrite client tr < 0 then
        (Spec.pressWrite client tr,
          Spec.afterRead tr 0x2E 2 ++ [BusOp.write_byte_data 0xF4 0x34])
      else if Spec.pressRead client tr < 0 then
        (Spec.pressRead client tr, Spec.fullTrace tr)
      else (Spec.rawUP client tr, Spec.fullTrace tr)) := by
  have h0 := u8_at_lt (client.read_reply (Spec.afterCommand (Spec.afterRead tr 0x2E 2) 0x34)
    0xF6 3).2 0
  have h1 := u8_at_lt (client.read_reply (Spec.afterCommand (Spec.afterRead tr 0x2E 2) 0x34)
    0xF6 3).2 1
  have h2 := u8_at_lt (client.read_reply (Spec.afterCommand (Spec.afterRead tr 0x2E 2) 0x34)
    0xF6 3).2 2
  rw [read_up_shape]
  have e : (65536 * (u8_at (client.read_reply (Spec.afterCommand (Spec.afterRead tr 0x2E 2) 0x34)
        0xF6 3).2 0 : Int) +
      256 * (u8_at (client.read_reply (Spec.afterCommand (Spec.afterRead tr 0x2E 2) 0x34)
        0xF6 3).2 1 : Int) +
      (u8_at (client.read_reply (Spec.afterCommand (Spec.afterRead tr 0x2E 2) 0x34)
        0xF6 3).2 2 : Int)) / 2 ^ 8 = Spec.rawUP client tr := by
    unfold Spec.rawUP
    omega
  rw [e]
  rfl

/-- The acquisition cycle of the user-space copy, case by case. -/
theorem Userspace_read_data_cases (client : i2c_client) (st : Userspace.State)
    (tr : List BusOp) :
    Userspace.bmp180_read_data client st tr =
      (if Spec.tempWrite client tr < 0 then
        some (Spec.tempWrite client tr, st, tr ++ [BusOp.write_byte_data 0xF4 0x2E])
      else if Spec.tempRead client tr < 0 then
        some (Spec.tempRead client tr, st, Spec.afterRead tr 0x2E 2)
      else if Spec.pressWrite client tr < 0 then
        some (Spec.pressWrite client tr, st,
          Spec.afterRead tr 0x2E 2 ++ [BusOp.write_byte_data 0xF4 0x34])
      else if Spec.pressRead client tr < 0 then
        some (Spec.pressRead client tr, st, Spec.fullTrace tr)
      else
        (Userspace.bmp180_calculate_values st.cal_data (Spec.rawUT client tr)
          (Spec.rawUP client tr)).map fun v =>
            (0, { st with
              current_temperature := v.1
              current_pressure := v.2
              data_buffer := snprintf st.data_buffer BUFFER_SIZE
                (Userspace.reading_text v.1 v.2) }, Spec.fullTrace tr)) := by
  have hut := rawUT_range client tr
  have hup := rawUP_range client tr
  unfold Userspace.bmp180_read_data
  rw [read_ut_cases]
  by_cases h1 : Spec.tempWrite client tr < 0
  · simp only [h1, if_true]
  · by_cases h2 : Spec.tempRead client tr < 0
    · simp only [h1, h2, if_true, if_false]
    · simp only [h1, h2, if_false]
      rw [if_neg (by omega), read_up_cases]
      by_cases h3 : Spec.pressWrite client tr < 0
      · simp only [h3, if_true]
      · by_cases h4 : Spec.pressRead client tr < 0
        · simp only [h3, h4, if_true, if_false]
        · simp only [h3, h4, if_false]
          rw [if_neg (by omega)]
          cases Userspace.bmp180_calculate_values st.cal_data (Spec.rawUT client tr)
            (Spec.rawUP client tr) <;> rfl

/-- The acquisition cycle of the kernel-log copy, case by case. -/
theorem Driver_read_data_cases (client : i2c_client) (cal : bmp180_calibration_data)
    (tr : List BusOp) :
    Driver.bmp180_read_data client cal tr =
      (if Spec.tempWrite client tr < 0 then
        some (Spec.tempWrite client tr, tr ++ [BusOp.write_byte_data 0xF4 0x2E])
      else if Spec.tempRead client tr < 0 then
        some (Spec.tempRead client tr, Spec.afterRead tr 0x2E 2)
      else if Spec.pressWrite client tr < 0 then
        some (Spec.pressWrite client tr,
          Spec.afterRead tr 0x2E 2 ++ [BusOp.write_byte_data 0xF4 0x34])
      else if Spec.pressRead client tr < 0 then
        some (Spec.pressRead client tr, Spec.fullTrace tr)
      else
        (Driver.bmp180_calculate_values cal (Spec.rawUT client tr)
          (Spec.rawUP client tr)).map fun _ => (0, Spec.fullTrace tr)) := by
  have hut := rawUT_range client tr
  have hup := rawUP_range client tr
  unfold Driver.bmp180_read_data
  rw [Driver_read_ut_eq, read_ut_cases]
  by_cases h1 : Spec.tempWrite client tr < 0
  · simp only [h1, if_true]
  · by_cases h2 : Spec.tempRead client tr < 0
    · simp only [h1, h2, if_true, if_false]
    · simp only [h1, h2, if_false]
      rw [if_neg (by omega), Driver_read_up_eq, read_up_cases]
      by_cases h3 : Spec.pressWrite client tr < 0
      · simp only [h3, if_true]
      · by_cases h4 : Spec.pressRead client tr < 0
        · simp only [h3, h4, if_true, if_false]
        · simp only [h3, h4, if_false]
          rw [if_neg (by omega)]
          cases Driver.bmp180_calculate_values cal (Spec.rawUT client tr)
            (Spec.rawUP client tr) <;> rfl

theorem afterRead_eq (tr : List BusOp) (cmd n : Nat) :
    Spec.afterRead tr cmd n =
      tr ++ [BusOp.write_byte_data 0xF4 cmd, BusOp.msleep 5, BusOp.read_i2c_block_data 0xF6 n] :=
  rfl

/-- C11: when the temperature acquisition fails (its command write or its
result read returns a negative code), `bmp180_read_data` of either copy returns
that negative code, and the operations it added to the bus trace hold no write
of 0x34 to register 0xF4 and no 3-byte read of register 0xF6. -/
theorem C11_failed_temperature_skips_pressure (client : i2c_client) (st : Userspace.State)
    (cal : bmp180_calibration_data) (tr : List BusOp) (h : Spec.TemperatureFails client tr) :
    (∃ ret ops, Userspace.bmp180_read_data client st tr = some (ret, st, tr ++ ops) ∧ ret < 0 ∧
      ∀ op ∈ ops, ¬ Spec.IsPressureOp op) ∧
    (∃ ret ops, Driver.bmp180_read_data client cal tr = some (ret, tr ++ ops) ∧ ret < 0 ∧
      ∀ op ∈ ops, ¬ Spec.IsPressureOp op) := by
  rw [Userspace_read_data_cases, Driver_read_data_cases]
  rcases h with h1 | ⟨h1, h2⟩
  · simp only [h1, if_true]
    exact ⟨⟨_, [BusOp.write_byte_data 0xF4 0x2E], rfl, h1, by decide⟩,
      ⟨_, [BusOp.write_byte_data 0xF4 0x2E], rfl, h1, by decide⟩⟩
  · simp only [if_neg (not_lt.mpr h1), h2, if_true, afterRead_eq]
    exact ⟨⟨_, [BusOp.write_byte_data 0xF4 0x2E, BusOp.msleep 5,
        BusOp.read_i2c_block_data 0xF6 2], rfl, h2, by decide⟩,
      ⟨_, [BusOp.write_byte_data 0xF4 0x2E, BusOp.msleep 5,
        BusOp.read_i2c_block_data 0xF6 2], rfl, h2, by decide⟩⟩

/-- Witness of C11: a bus on which every transfer fails. -/
theorem C11_failed_temperature_skips_pressure_witness :
    Spec.TemperatureFails deadClient [] ∧
    ∃ ret ops, Driver.bmp180_read_data deadClient sampleCal [] = some (ret, [] ++ ops) ∧
      ret < 0 ∧ ∀ op ∈ ops, ¬ Spec.IsPressureOp op :=
  ⟨by decide,
    (C11_failed_temperature_skips_pressure deadClient (Userspace.stateWith sampleCal) sampleCal []
      (by decide)).2⟩

/-- The conversion of two `u8` elements to `s16`. -/
theorem toS16_u8 (buf : List Nat) (i j : Nat) :
    toS16 (((u8_at buf i <<< 8) ||| u8_at buf j : Nat) : Int) =
      Spec.signed16 (256 * (u8_at buf i : Int) + u8_at buf j) := by
  have h0 := u8_at_lt buf i
  have h1 := u8_at_lt buf j
  rw [shl8_or _ h1]
  unfold toS16 Spec.signed16
  push_cast
  split <;> omega

/-- The conversion of two `u8` elements to `u16`. -/
theorem toU16_u8 (buf : List Nat) (i j : Nat) :
    toU16 (((u8_at buf i <<< 8) ||| u8_at buf j : Nat) : Int) =
      256 * (u8_at buf i : Int) + u8_at buf j := by
  have h0 := u8_at_lt buf i
  have h1 := u8_at_lt buf j
  rw [shl8_or _ h1]
  unfold toU16
  push_cast
  omega

/-- The calibration load of the user-space copy, case by case. -/
theorem Userspace_read_cal_cases (client : i2c_client) (st : Userspace.State)
    (tr : List BusOp) :
    Userspace.bmp180_read_calibration_data client st tr =
      (if Spec.calRead client tr < 0 then
        (Spec.calRead client tr,
          { st with data_buffer := (snprintf st.data_buffer BUFFER_SIZE
              (bytes "Failed to read calibration data\n")) }, Spec.afterCal tr)
      else
        (0, { st with cal_data := Spec.decode (client.read_reply tr 0xAA 22).2 },
          Spec.afterCal tr)) := by
  simp only [Userspace.bmp180_read_calibration_data, i2c_smbus_read_i2c_block_data,
    BMP180_REG_CALIBRATION_START, BMP180_CALIBRATION_DATA_LENGTH, toS16_u8, toU16_u8,
    Spec.calRead, Spec.afterCal, Spec.decode]

/-- The calibration load of the kernel-log copy, case by case. -/
theorem Driver_read_cal_cases (client : i2c_client) (cal : bmp180_calibration_data)
    (tr : List BusOp) :
    Driver.bmp180_read_calibration_data client cal tr =
      (if Spec.calRead client tr < 0 then (Spec.calRead client tr, cal, Spec.afterCal tr)
      else (0, Spec.decode (client.read_reply tr 0xAA 22).2, Spec.afterCal tr)) := by
  simp only [Driver.bmp180_read_calibration_data, i2c_smbus_read_i2c_block_data,
    BMP180_REG_CALIBRATION_START, BMP180_CALIBRATION_DATA_LENGTH, toS16_u8, toU16_u8,
    Spec.calRead, Spec.afterCal, Spec.decode]

/-- C12: when the 22-byte calibration block read fails (returns a negative
code), `bmp180_read_calibration_data` of either copy returns that negative
code and `cal_data`, all 11 fields, is as before. -/
theorem C12_failed_calibration_keeps_cal_data (client : i2c_client) (st : Userspace.State)
    (cal : bmp180_calibration_data) (tr : List BusOp) (h : Spec.calRead client tr < 0) :
    ((Userspace.bmp180_read_calibration_data client st tr).1 = Spec.calRead client tr ∧
      (Userspace.bmp180_read_calibration_data client st tr).1 < 0 ∧
      (Userspace.bmp180_read_calibration_data client st tr).2.1.cal_data = st.cal_data) ∧
    ((Driver.bmp180_read_calibration_data client cal tr).1 = Spec.calRead client tr ∧
      (Driver.bmp180_read_calibration_data client cal tr).1 < 0 ∧
      (Driver.bmp180_read_calibration_data client cal tr).2.1 = cal) := by
  rw [Userspace_read_cal_cases, Driver_read_cal_cases]
  simp only [h, if_true, and_self]

/-- Witness of C12: a bus on which every transfer fails. -/
theorem C12_failed_calibration_keeps_cal_data_witness :
    Spec.calRead deadClient [] < 0 ∧
    (Driver.bmp180_read_calibration_data deadClient sampleCal []).2.1 = sampleCal :=
  ⟨by decide,
    (C12_failed_calibration_keeps_cal_data deadClient (Userspace.stateWith sampleCal) sampleCal []
      (by decide)).2.2.2⟩

/-- C13, counterexample: a calibration read that reports 5 bytes transferred
(a non-negative count below 22) is not treated as an error: both copies of
`bmp180_read_calibration_data` return 0 and store decoded coefficients. -/
theorem C13_short_read_is_decoded :
    0 ≤ Spec.calRead shortClient [] ∧ Spec.calRead shortClient [] < 22 ∧
    (Userspace.bmp180_read_calibration_data shortClient (Userspace.stateWith datasheetCal)
      []).1 = 0 ∧
    (Userspace.bmp180_read_calibration_data shortClient (Userspace.stateWith datasheetCal)
      []).2.1.cal_data = { sampleCal with AC4 := 32768 } ∧
    (Driver.bmp180_read_calibration_data shortClient datasheetCal []).1 = 0 ∧
    (Driver.bmp180_read_calibration_data shortClient datasheetCal []).2.1 =
      { sampleCal with AC4 := 32768 } := by
  decide

/-- C13, amended: `bmp180_read_calibration_data` of either copy returns an
error instead of decoding exactly when the block read returns a negative code;
for every non-negative return code, also a count below 22, it returns 0 and
stores the coefficients decoded from the buffer. -/
theorem C13_error_only_on_negative_code (client : i2c_client) (st : Userspace.State)
    (cal : bmp180_calibration_data) (tr : List BusOp) :
    ((Userspace.bmp180_read_calibration_data client st tr).1 =
        (if Spec.calRead client tr < 0 then Spec.calRead client tr else 0) ∧
      (Userspace.bmp180_read_calibration_data client st tr).2.1.cal_data =
        (if Spec.calRead client tr < 0 then st.cal_data
          else Spec.decode (client.read_reply tr 0xAA 22).2)) ∧
    ((Driver.bmp180_read_calibration_data client cal tr).1 =
        (if Spec.calRead client tr < 0 then Spec.calRead client tr else 0) ∧
      (Driver.bmp180_read_calibration_data client cal tr).2.1 =
        (if Spec.calRead client tr < 0 then cal
          else Spec.decode (client.read_reply tr 0xAA 22).2)) := by
  rw [Userspace_read_cal_cases, Driver_read_cal_cases]
  by_cases h : Spec.calRead client tr < 0
  · simp only [h, if_true, and_self]
  · simp only [h, if_false, and_self]

/-- The text `snprintf` leaves in the buffer: the whole output, when it fits
and holds no NUL. -/
theorem cstring_snprintf (dst out : List Nat) (size : Nat) (hlen : out.length < size)
    (hnz : ∀ b ∈ out, b ≠ 0) : cstring (snprintf dst size out) = out := by
  have hsz : size ≠ 0 := by omega
  unfold snprintf cstring
  rw [if_neg hsz, List.take_of_length_le (by omega), List.append_assoc]
  rw [List.takeWhile_append_of_pos (by simpa using hnz)]
  simp

/-- C15, counterexample: on a failing bus `bmp180_read_calibration_data` of
the user-space copy replaces the cached text `"No data\n"` by
`"Failed to read calibration data\n"`. -/
theorem C15_failure_overwrites_text :
    cstring (Userspace.stateWith sampleCal).data_buffer = bytes "No data\n" ∧
    cstring (Userspace.bmp180_read_calibration_data deadClient (Userspace.stateWith sampleCal)
      []).2.1.data_buffer = bytes "Failed to read calibration data\n" ∧
    cstring (Userspace.bmp180_read_calibration_data deadClient (Userspace.stateWith sampleCal)
      []).2.1.data_buffer ≠ cstring (Userspace.stateWith sampleCal).data_buffer := by
  have h0 : cstring (Userspace.stateWith sampleCal).data_buffer = bytes "No data\n" := by
    decide
  have hneg : Spec.calRead deadClient [] < 0 := by decide
  have h1 : cstring (Userspace.bmp180_read_calibration_data deadClient
      (Userspace.stateWith sampleCal) []).2.1.data_buffer =
      bytes "Failed to read calibration data\n" := by
    rw [Userspace_read_cal_cases, if_pos hneg]
    exact cstring_snprintf _ (bytes "Failed to read calibration data\n") BUFFER_SIZE
      (by decide) (by decide)
  refine ⟨h0, h1, ?_⟩
  rw [h0, h1]
  decide

/-- C15, amended: `bmp180_read_calibration_data` of the user-space copy never
changes `current_temperature` or `current_pressure`; on success it changes
`cal_data` alone (`data_buffer` is as before); on failure it leaves `cal_data`
and replaces the text in `data_buffer` by `"Failed to read calibration data\n"`. -/
theorem C15_frame_of_calibration_load (client : i2c_client) (st : Userspace.State)
    (tr : List BusOp) :
    (Userspace.bmp180_read_calibration_data client st tr).2.1.current_temperature =
      st.current_temperature ∧
    (Userspace.bmp180_read_calibration_data client st tr).2.1.current_pressure =
      st.current_pressure ∧
    (if Spec.calRead client tr < 0 then
      (Userspace.bmp180_read_calibration_data client st tr).2.1.cal_data = st.cal_data ∧
      cstring (Userspace.bmp180_read_calibration_data client st tr).2.1.data_buffer =
        bytes "Failed to read calibration data\n"
    else
      (Userspace.bmp180_read_calibration_data client st tr).2.1.data_buffer = st.data_buffer) := by
  by_cases h : Spec.calRead client tr < 0
  · have e := Userspace_read_cal_cases client st tr
    rw [if_pos h] at e
    rw [if_pos h, e]
    exact ⟨rfl, rfl, rfl, cstring_snprintf _ (bytes "Failed to read calibration data\n")
      BUFFER_SIZE (by decide) (by decide)⟩
  · have h' : ¬ (i2c_smbus_read_i2c_block_data client tr BMP180_REG_CALIBRATION_START
        BMP180_CALIBRATION_DATA_LENGTH).1 < 0 := h
    rw [if_neg h]
    unfold Userspace.bmp180_read_calibration_data
    simp only [h', if_false, and_self]

/-- The threaded body of `bmp180_read` returns what `bmp180_read` returns. -/
theorem Threaded_read_result (st : Userspace.State) (tr : List BusOp) (w count : Nat)
    (ppos : Int) :
    (Userspace.Threaded.bmp180_read st tr w count ppos).1 =
      Userspace.bmp180_read st w count ppos := by
  unfold Userspace.Threaded.bmp180_read Userspace.bmp180_read
  simp only []
  split_ifs <;> rfl

/-- C16: a `bmp180_read` call, at each of its three `return` statements,
leaves the globals `data_buffer`, `cal_data`, `current_temperature` and
`current_pressure` as they were and adds no operation to the bus trace; its
result depends on no global but `data_buffer`; the caller's offset is the one
thing that may change (it goes from 0 to 8 on the initial text). -/
theorem C16_read_changes_only_the_offset (st : Userspace.State) (tr : List BusOp)
    (w count : Nat) (ppos : Int) :
    (Userspace.Threaded.bmp180_read st tr w count ppos).2.1.data_buffer = st.data_buffer ∧
    (Userspace.Threaded.bmp180_read st tr w count ppos).2.1.cal_data = st.cal_data ∧
    (Userspace.Threaded.bmp180_read st tr w count ppos).2.1.current_temperature =
      st.current_temperature ∧
    (Userspace.Threaded.bmp180_read st tr w count ppos).2.1.current_pressure =
      st.current_pressure ∧
    (Userspace.Threaded.bmp180_read st tr w count ppos).2.2 = tr ∧
    (Userspace.Threaded.bmp180_read st tr w count ppos).1 =
      Userspace.bmp180_read st w count ppos ∧
    (∀ st' : Userspace.State, st'.data_buffer = st.data_buffer →
      (Userspace.Threaded.bmp180_read st' tr w count ppos).1 =
        (Userspace.Threaded.bmp180_read st tr w count ppos).1) ∧
    (Userspace.Threaded.bmp180_read (Userspace.stateWith sampleCal) tr 8 8 0).1.ppos = 8 := by
  have hframe : (Userspace.Threaded.bmp180_read st tr w count ppos).2 = (st, tr) := by
    unfold Userspace.Threaded.bmp180_read
    simp only []
    split_ifs <;> rfl
  refine ⟨by rw [hframe], by rw [hframe], by rw [hframe], by rw [hframe], by rw [hframe],
    Threaded_read_result st tr w count ppos, ?_, ?_⟩
  · intro st' h
    rw [Threaded_read_result, Threaded_read_result]
    unfold Userspace.bmp180_read
    rw [h]
  · rw [Threaded_read_result]
    decide

/-- The frame of `bmp180_read` is a property of its body, not of the types:
from the same globals and the same empty trace, `bmp180_read_data` leaves
another `data_buffer`, another `current_temperature`, another
`current_pressure` and six bus operations. -/
theorem read_data_changes_globals_and_trace :
    (Userspace.bmp180_read_data (scriptedClient [] [0x5C, 0x66] [0x9C, 0x40, 0x00])
        (Userspace.stateWith sampleCal) []).map
      (fun r => (decide (r.2.1.data_buffer = (Userspace.stateWith sampleCal).data_buffer),
        decide (r.2.1.current_temperature =
          (Userspace.stateWith sampleCal).current_temperature),
        decide (r.2.1.current_pressure = (Userspace.stateWith sampleCal).current_pressure),
        r.2.2.length)) =
      some (false, false, false, 6) := by
  decide

/-- A failed acquisition in the user-space copy: a negative code, the globals
as before. -/
theorem Userspace_read_data_of_fails (client : i2c_client) (st : Userspace.State)
    (tr : List BusOp) (h : Spec.AcquisitionFails client tr) :
    ∃ ret tr', Userspace.bmp180_read_data client st tr = some (ret, st, tr') ∧ ret < 0 := by
  rw [Userspace_read_data_cases]
  rcases h with h1 | ⟨h1, h2⟩ | ⟨h1, h2, h3⟩ | ⟨h1, h2, h3, h4⟩
  · rw [if_pos h1]; exact ⟨_, _, rfl, h1⟩
  · rw [if_neg (not_lt.mpr h1), if_pos h2]; exact ⟨_, _, rfl, h2⟩
  · rw [if_neg (not_lt.mpr h1), if_neg (not_lt.mpr h2), if_pos h3]; exact ⟨_, _, rfl, h3⟩
  · rw [if_neg (not_lt.mpr h1), if_neg (not_lt.mpr h2), if_neg (not_lt.mpr h3), if_pos h4]
    exact ⟨_, _, rfl, h4⟩

/-- A failed acquisition in the kernel-log copy: a negative code. -/
theorem Driver_read_data_of_fails (client : i2c_client) (cal : bmp180_calibration_data)
    (tr : List BusOp) (h : Spec.AcquisitionFails client tr) :
    ∃ ret tr', Driver.bmp180_read_data client cal tr = some (ret, tr') ∧ ret < 0 := by
  rw [Driver_read_data_cases]
  rcases h with h1 | ⟨h1, h2⟩ | ⟨h1, h2, h3⟩ | ⟨h1, h2, h3, h4⟩
  · rw [if_pos h1]; exact ⟨_, _, rfl, h1⟩
  · rw [if_neg (not_lt.mpr h1), if_pos h2]; exact ⟨_, _, rfl, h2⟩
  · rw [if_neg (not_lt.mpr h1), if_neg (not_lt.mpr h2), if_pos h3]; exact ⟨_, _, rfl, h3⟩
  · rw [if_neg (not_lt.mpr h1), if_neg (not_lt.mpr h2), if_neg (not_lt.mpr h3), if_pos h4]
    exact ⟨_, _, rfl, h4⟩

/-- No step of the acquisition fails: all four return codes are non-negative. -/
theorem not_fails_iff (client : i2c_client) (tr : List BusOp) :
    ¬ Spec.AcquisitionFails client tr ↔
      (0 ≤ Spec.tempWrite client tr ∧ 0 ≤ Spec.tempRead client tr ∧
        0 ≤ Spec.pressWrite client tr ∧ 0 ≤ Spec.pressRead client tr) := by
  unfold Spec.AcquisitionFails
  constructor
  · intro h
    omega
  · intro h
    omega

/-- C20: the raw samples a successful read yields lie in `0..65535`, so the
sign checks of `bmp180_read_data` tell results from errors: when a bus step
fails (returns a negative code) the function, in either copy, returns a
negative code; when none fails it returns 0, and it returns at all exactly
when the compensation arithmetic is defined; so every code it returns is
negative if and only if one of the bus steps it issued failed. -/
theorem C20_sign_encoding_sound (client : i2c_client) (st : Userspace.State)
    (cal : bmp180_calibration_data) (tr : List BusOp) :
    (0 ≤ Spec.rawUT client tr ∧ Spec.rawUT client tr ≤ 65535) ∧
    (0 ≤ Spec.rawUP client tr ∧ Spec.rawUP client tr ≤ 65535) ∧
    (∀ r, Userspace.bmp180_read_data client st tr = some r →
      (r.1 < 0 ↔ Spec.AcquisitionFails client tr)) ∧
    (∀ r, Driver.bmp180_read_data client cal tr = some r →
      (r.1 < 0 ↔ Spec.AcquisitionFails client tr)) ∧
    (if Spec.AcquisitionFails client tr then
      (∃ ret tr', Userspace.bmp180_read_data client st tr = some (ret, st, tr') ∧ ret < 0) ∧
      (∃ ret tr', Driver.bmp180_read_data client cal tr = some (ret, tr') ∧ ret < 0)
    else
      (Userspace.bmp180_read_data client st tr).map (fun r => r.1) =
        (Userspace.bmp180_calculate_values st.cal_data (Spec.rawUT client tr)
          (Spec.rawUP client tr)).map (fun _ => 0) ∧
      (Driver.bmp180_read_data client cal tr).map (fun r => r.1) =
        (Driver.bmp180_calculate_values cal (Spec.rawUT client tr)
          (Spec.rawUP client tr)).map (fun _ => 0)) := by
  have hok : ¬ Spec.AcquisitionFails client tr →
      (Userspace.bmp180_read_data client st tr).map (fun r => r.1) =
        (Userspace.bmp180_calculate_values st.cal_data (Spec.rawUT client tr)
          (Spec.rawUP client tr)).map (fun _ => 0) ∧
      (Driver.bmp180_read_data client cal tr).map (fun r => r.1) =
        (Driver.bmp180_calculate_values cal (Spec.rawUT client tr)
          (Spec.rawUP client tr)).map (fun _ => 0) := by
    intro hn
    obtain ⟨h1, h2, h3, h4⟩ := (not_fails_iff client tr).mp hn
    rw [Userspace_read_data_cases, Driver_read_data_cases, if_neg (not_lt.mpr h1),
      if_neg (not_lt.mpr h2), if_neg (not_lt.mpr h3), if_neg (not_lt.mpr h4),
      if_neg (not_lt.mpr h1), if_neg (not_lt.mpr h2), if_neg (not_lt.mpr h3),
      if_neg (not_lt.mpr h4)]
    constructor
    · cases Userspace.bmp180_calculate_values st.cal_data (Spec.rawUT client tr)
        (Spec.rawUP client tr) <;> rfl
    · cases Driver.bmp180_calculate_values cal (Spec.rawUT client tr)
        (Spec.rawUP client tr) <;> rfl
  refine ⟨rawUT_range client tr, rawUP_range client tr, ?_, ?_, ?_⟩
  · intro r hr
    by_cases hf : Spec.AcquisitionFails client tr
    · obtain ⟨ret, tr', he, hneg⟩ := Userspace_read_data_of_fails client st tr hf
      rw [he] at hr
      cases hr
      exact ⟨fun _ => hf, fun _ => hneg⟩
    · have e := (hok hf).1
      rw [hr] at e
      cases hc : Userspace.bmp180_calculate_values st.cal_data (Spec.rawUT client tr)
          (Spec.rawUP client tr) with
      | none => rw [hc] at e; simp at e
      | some v =>
        rw [hc] at e
        simp only [Option.map_some', Option.some.injEq] at e
        constructor
        · intro hlt; omega
        · intro h; exact absurd h hf
  · intro r hr
    by_cases hf : Spec.AcquisitionFails client tr
    · obtain ⟨ret, tr', he, hneg⟩ := Driver_read_data_of_fails client cal tr hf
      rw [he] at hr
      cases hr
      exact ⟨fun _ => hf, fun _ => hneg⟩
    · have e := (hok hf).2
      rw [hr] at e
      cases hc : Driver.bmp180_calculate_values cal (Spec.rawUT client tr)
          (Spec.rawUP client tr) with
      | none => rw [hc] at e; simp at e
      | some v =>
        rw [hc] at e
        simp only [Option.map_some', Option.some.injEq] at e
        constructor
        · intro hlt; omega
        · intro h; exact absurd h hf
  · by_cases hf : Spec.AcquisitionFails client tr
    · rw [if_pos hf]
      exact ⟨Userspace_read_data_of_fails client st tr hf,
        Driver_read_data_of_fails client cal tr hf⟩
    · rw [if_neg hf]
      exact hok hf

/-! ## Initialisation: `bmp180_probe` -/

/-- C14 at a failing input: with registration and calibration load succeeding
and the acquisition failing at its first bus step (code -5), `bmp180_probe` of
`bmp180_driver.c` returns -5, while `bmp180_probe` of the user-space copy
returns 0: its line 232 drops the result of `bmp180_read_data`. -/
theorem C14_userspace_probe_returns_zero :
    okRegistration.Succeeds ∧ 0 ≤ Spec.calRead calOnlyClient [] ∧
    Spec.AcquisitionFails calOnlyClient (Spec.afterCal []) ∧
    (Driver.bmp180_probe calOnlyClient datasheetCal []).map (fun r => r.1) = some (-5) ∧
    (Userspace.bmp180_probe calOnlyClient okRegistration (Userspace.stateWith datasheetCal)
      []).map (fun r => r.1) = some 0 := by
  decide

/-- The return codes of `bmp180_probe`, for every bus: the copy in
`bmp180_driver.c` returns a negative code
when the calibration load fails or an acquisition bus step fails.  With
registration succeeding, `bmp180_probe` of the user-space copy returns the
negative code when the calibration load fails; when the calibration load
succeeds and an acquisition bus step fails it returns 0 (the result of
`bmp180_read_data` is not looked at) and the cached text is as before. -/
theorem probe_return_codes (client : i2c_client) (reg : Registration)
    (st : Userspace.State) (cal : bmp180_calibration_data) (tr : List BusOp)
    (hreg : reg.Succeeds) :
    (if Spec.calRead client tr < 0 then
      (∃ cal' tr', Driver.bmp180_probe client cal tr =
        some (Spec.calRead client tr, cal', tr')) ∧
      (∃ st' tr', Userspace.bmp180_probe client reg st tr =
        some (Spec.calRead client tr, st', tr'))
    else
      (Spec.AcquisitionFails client (Spec.afterCal tr) →
        (∃ ret cal' tr', Driver.bmp180_probe client cal tr = some (ret, cal', tr') ∧ ret < 0) ∧
        (∃ st' tr', Userspace.bmp180_probe client reg st tr = some (0, st', tr') ∧
          st'.data_buffer = st.data_buffer))) := by
  obtain ⟨hf, hm, hc, hd⟩ := hreg
  have hUcal := Userspace_read_cal_cases client st tr
  have hDcal := Driver_read_cal_cases client cal tr
  by_cases h : Spec.calRead client tr < 0
  · rw [if_pos h] at hUcal hDcal ⊢
    constructor
    · unfold Driver.bmp180_probe
      rw [hDcal]
      simp only [h, if_true]
      exact ⟨_, _, rfl⟩
    · unfold Userspace.bmp180_probe
      rw [hUcal]
      simp only [hf, hc, hd, if_neg (not_lt.mpr hm), h, if_true]
      exact ⟨_, _, rfl⟩
  · rw [if_neg h] at hUcal hDcal ⊢
    intro hfail
    constructor
    · obtain ⟨ret, tr', he, hneg⟩ := Driver_read_data_of_fails client
        (Spec.decode (client.read_reply tr 0xAA 22).2) (Spec.afterCal tr) hfail
      unfold Driver.bmp180_probe
      rw [hDcal]
      simp only [lt_self_iff_false, if_false, he, hneg, if_true]
      exact ⟨_, _, _, rfl, hneg⟩
    · obtain ⟨ret, tr', he, _⟩ := Userspace_read_data_of_fails client
        { st with cal_data := Spec.decode (client.read_reply tr 0xAA 22).2 }
        (Spec.afterCal tr) hfail
      unfold Userspace.bmp180_probe
      rw [hUcal]
      simp only [hf, hc, hd, if_neg (not_lt.mpr hm), lt_self_iff_false, if_false, he]
      exact ⟨_, _, rfl, rfl⟩

/-- The return codes of `bmp180_probe` on the bus on which only the calibration
read succeeds. -/
theorem probe_return_codes_example :
    okRegistration.Succeeds ∧ ¬ Spec.calRead calOnlyClient [] < 0 ∧
    Spec.AcquisitionFails calOnlyClient (Spec.afterCal []) ∧
    (∃ ret cal' tr', Driver.bmp180_probe calOnlyClient datasheetCal [] = some (ret, cal', tr') ∧
      ret < 0) :=
  have h := probe_return_codes calOnlyClient okRegistration (Userspace.stateWith datasheetCal)
    datasheetCal [] (by decide)
  ⟨by decide, by decide, by decide,
    ((if_neg (show ¬ Spec.calRead calOnlyClient [] < 0 by decide)).mp h (by decide)).1⟩

/-! ## Division hazards and step 10 -/

/-- Step 2 of the specification is defined exactly when its divisor is not zero. -/
theorem spec_B5_eq (UT AC5 AC6 MC MD : Int) :
    Spec.B5 UT AC5 AC6 MC MD =
      if Spec.divisor2 UT AC5 AC6 MD = 0 then none
      else some (Spec.add (Spec.X1 UT AC6 AC5)
        (toS32 ((Spec.shl MC 11).tdiv (Spec.divisor2 UT AC5 AC6 MD)))) := by
  unfold Spec.B5 Spec.X2 Spec.div
  split <;> rfl

/-- C18, counterexample: with AC4 = 0 (and the other coefficients, UT and UP
of the data sheet's example) the divisor of step 2 is not zero, but `B4 = 0`
at step 10, and neither copy of `bmp180_calculate_values` yields a result. -/
theorem C18_B4_can_be_zero :
    zeroAC4Cal.WellTyped ∧
    Spec.divisor2 27898 zeroAC4Cal.AC5 zeroAC4Cal.AC6 zeroAC4Cal.MD ≠ 0 ∧
    Spec.divisor10 zeroAC4Cal 27898 = some 0 ∧
    Driver.bmp180_calculate_values zeroAC4Cal 27898 23843 = none ∧
    Userspace.bmp180_calculate_values zeroAC4Cal 27898 23843 = none :=
  ⟨by decide, by decide, by rfl, by rfl, by rfl⟩

/-- C18, amended: `bmp180_calculate_values` has two division hazards, the
divisor `X1 + MD` of step 2 and the divisor `B4` of step 10 (the divisor 4 of
step 6 is a constant): for every calibration set and every raw pair, either
copy yields a temperature and a pressure if and only if neither of the two is
zero. -/
theorem C18_defined_iff_no_zero_divisor (c : bmp180_calibration_data) (UT UP : Int)
    (hc : c.WellTyped) :
    ((Driver.bmp180_calculate_values c UT UP).isSome = true ↔ Spec.NoZeroDivisor c UT) ∧
    ((Userspace.bmp180_calculate_values c UT UP).isSome = true ↔ Spec.NoZeroDivisor c UT) := by
  have hD := Driver_temperature c UT UP
  have hU := Userspace_temperature c UT UP hc
  have key : ∀ r : Option (Int × Int),
      r.map Prod.fst = ((Spec.B5 UT c.AC5 c.AC6 c.MC c.MD).bind fun b5 =>
        if Spec.B4 c (Spec.B6 b5) = 0 then none else some (Spec.shr (Spec.add b5 8) 4)) →
      (r.isSome = true ↔ Spec.NoZeroDivisor c UT) := by
    intro r hr
    have hsome : r.isSome = (r.map Prod.fst).isSome := by cases r <;> rfl
    rw [hsome, hr]
    unfold Spec.NoZeroDivisor Spec.divisor10
    rw [spec_B5_eq]
    by_cases hd : Spec.divisor2 UT c.AC5 c.AC6 c.MD = 0
    · simp [hd]
    · simp only [hd, if_false, Option.some_bind, Option.map_some', Option.some.injEq,
        exists_eq_left', ne_eq, not_false_eq_true, true_and]
      split
      · next h0 => simp [h0]
      · next h0 => simp [h0]
  exact ⟨key _ hD, key _ hU⟩

/-- Witness of C18: the data sheet's example. -/
theorem C18_defined_iff_no_zero_divisor_witness :
    datasheetCal.WellTyped ∧
    ((Driver.bmp180_calculate_values datasheetCal 27898 23843).isSome = true ↔
      Spec.NoZeroDivisor datasheetCal 27898) :=
  ⟨by decide, (C18_defined_iff_no_zero_divisor datasheetCal 27898 23843 (by decide)).1⟩

/-- Step 10 of the specification is the value the code assigns to `p`. -/
theorem spec_p_eq_step10 {b4 b7 : Int} (h4 : 0 ≤ b4) (h4u : b4 < 4294967296) (h7 : 0 ≤ b7)
    (h7u : b7 < 4294967296) :
    Spec.p b7 b4 = if b4 = 0 then none else some (step10 b7 b4) :=
  spec_p_eq h4 h4u h7 h7u

theorem B7_of_range (c : bmp180_calibration_data) (b6 UP : Int) :
    0 ≤ Userspace.B7_of c b6 UP ∧ Userspace.B7_of c b6 UP < 4294967296 := by
  unfold Userspace.B7_of
  exact ⟨toU32_nonneg _, toU32_lt _⟩

/-- The user-space copy in terms of the specification's steps, with its own
`B7`. -/
theorem Userspace_refines (c : bmp180_calibration_data) (UT UP : Int) (hc : c.WellTyped) :
    Userspace.bmp180_calculate_values c UT UP =
      (Spec.B5 UT c.AC5 c.AC6 c.MC c.MD).bind fun b5 =>
        (Spec.p (Userspace.B7_of c (Spec.B6 b5) UP) (Spec.B4 c (Spec.B6 b5))).map fun p =>
          (Spec.shr (Spec.add b5 8) 4, Spec.pressure_of_p p) := by
  obtain ⟨h1, h2, h3, h4, h5, h6, h7, h8, h9, h10, h11⟩ := hc
  simp only [Userspace.bmp180_calculate_values, Userspace.B7_of, toS32_of_isS16 h1,
    toS32_of_isS16 h2, toS32_of_isS16 h3, toS32_of_isU16 h5, toS32_of_isU16 h6,
    toS32_of_isS16 h7, toS32_of_isS16 h8, toS32_of_isS16 h10, toS32_of_isS16 h11]
  simp only [asr_eq_shr]
  have hX1 : Spec.shr (toS32 (toS32 (UT - c.AC6) * c.AC5)) 15 = Spec.X1 UT c.AC6 c.AC5 := rfl
  rw [hX1]
  unfold Spec.B5 Spec.X2 Spec.div Spec.divisor2
  generalize Spec.X1 UT c.AC6 c.AC5 = X1
  simp only [Spec.add]
  by_cases hd : toS32 (X1 + c.MD) = 0
  · simp [hd]
  · simp only [hd, if_false, Option.map_some', Option.some_bind]
    have hB5 : toS32 (X1 + toS32 ((toS32 (c.MC * 2 ^ 11)).tdiv (toS32 (X1 + c.MD)))) =
      toS32 (X1 + toS32 ((Spec.shl c.MC 11).tdiv (toS32 (X1 + c.MD)))) := rfl
    rw [hB5]
    generalize toS32 (X1 + toS32 ((Spec.shl c.MC 11).tdiv (toS32 (X1 + c.MD)))) = B5
    have hB6 : toS32 (B5 - 4000) = Spec.B6 B5 := rfl
    rw [hB6]
    generalize Spec.B6 B5 = B6
    have hB4 : lsr (toU32 (toU32 c.AC4 * toU32 (toS32 (Spec.shr (toS32 (toS32
        (Spec.shr (toS32 (c.AC3 * B6)) 13 +
          Spec.shr (toS32 (c.B1 * Spec.shr (toS32 (B6 * B6)) 12)) 16) + 2)) 2 + 32768)))) 15 =
        Spec.B4 c B6 := by
      rw [lsr_eq_div (toU32_nonneg _)]
      simp only [Spec.B4, Spec.ushr, Spec.umul, Spec.X3_step7, Spec.add, Spec.mul, toU32_idem]
    rw [hB4]
    have hB4r := spec_B4_range c B6
    have hB7r : 0 ≤ toU32 (toU32 (toU32 UP - toU32 (toS32 ((toS32 (toS32 (toS32 (toS32
        (c.AC1 * 4) + toS32 (Spec.shr (Spec.shr (toS32 (c.B2 * toS32 (B6 * B6))) 12) 11 +
          Spec.shr (toS32 (c.AC2 * B6)) 11)) * 2 ^ 0) + 2)).tdiv 4))) * toU32 50000) ∧
        toU32 (toU32 (toU32 UP - toU32 (toS32 ((toS32 (toS32 (toS32 (toS32
        (c.AC1 * 4) + toS32 (Spec.shr (Spec.shr (toS32 (c.B2 * toS32 (B6 * B6))) 12) 11 +
          Spec.shr (toS32 (c.AC2 * B6)) 11)) * 2 ^ 0) + 2)).tdiv 4))) * toU32 50000) <
          4294967296 := ⟨toU32_nonneg _, toU32_lt _⟩
    generalize toU32 (toU32 (toU32 UP - toU32 (toS32 ((toS32 (toS32 (toS32 (toS32
        (c.AC1 * 4) + toS32 (Spec.shr (Spec.shr (toS32 (c.B2 * toS32 (B6 * B6))) 12) 11 +
          Spec.shr (toS32 (c.AC2 * B6)) 11)) * 2 ^ 0) + 2)).tdiv 4))) * toU32 50000) = B7
      at hB7r ⊢
    generalize Spec.B4 c B6 = B4 at hB4r ⊢
    rw [spec_p_eq hB4r.1 hB4r.2 hB7r.1 hB7r.2]
    by_cases h0 : B4 = 0
    · simp [h0]
    · simp only [h0, if_false, Option.map_some']
      rfl

/-- C19, counterexample: with AC4 = 1 (other inputs as in the data sheet's
example) step 10 runs with `B7 = 1171050000 < 0x80000000` and `B4 = 1`; the
quotient `2*B7 / B4 = 2342100000` does not fit the `s32` variable `p`, which
receives -1952867296, and the pressure that results is negative. -/
theorem C19_p_is_not_the_quotient :
    unitAC4Cal.WellTyped ∧
    Spec.B5 27898 unitAC4Cal.AC5 unitAC4Cal.AC6 unitAC4Cal.MC unitAC4Cal.MD = some 2400 ∧
    Spec.B7 unitAC4Cal (Spec.B6 2400) 23843 = 1171050000 ∧
    Spec.B4 unitAC4Cal (Spec.B6 2400) = 1 ∧
    (1171050000 : Int) < 0x80000000 ∧
    2 * (1171050000 : Int) / 1 = 2342100000 ∧
    step10 1171050000 1 = -1952867296 ∧
    step10 1171050000 1 ≠ 2 * (1171050000 : Int) / 1 ∧
    Driver.bmp180_calculate_values unitAC4Cal 27898 23843 = some (150, -1952868228) ∧
    Userspace.bmp180_calculate_values unitAC4Cal 27898 23843 = some (150, -1952868228) :=
  ⟨by decide, by rfl, by rfl, by rfl, by decide, by decide, by rfl, by decide, by rfl, by rfl⟩

/-- C19, amended: for unsigned 32-bit `B7 < 0x80000000` and `B4 ≠ 0` the
doubling `B7*2` does not wrap, and the value assigned to the `s32` variable `p`
is `floor(2*B7 / B4)` converted to `s32`: it is that quotient whenever the
quotient is below `2^31`.  For `B7 ≥ 0x80000000` the value is `(B7 / B4) * 2`
in unsigned 32-bit arithmetic, converted to `s32`; `B7` is not doubled before
the division.  Both copies of `bmp180_calculate_values` compute their
pressure from this `p`. -/
theorem C19_step10_value (B7 B4 : Int) (h7 : 0 ≤ B7) (h7u : B7 < 4294967296)
    (h4 : 0 < B4) (h4u : B4 < 4294967296) :
    (if B7 < 0x80000000 then
      toU32 (B7 * 2) = 2 * B7 ∧ step10 B7 B4 = toS32 (2 * B7 / B4) ∧
        (2 * B7 / B4 < 2147483648 → step10 B7 B4 = 2 * B7 / B4)
    else step10 B7 B4 = toS32 (toU32 (B7 / B4 * 2))) ∧
    (∀ (c : bmp180_calibration_data) (UT UP b5 : Int), c.WellTyped →
      Spec.B5 UT c.AC5 c.AC6 c.MC c.MD = some b5 → Spec.B4 c (Spec.B6 b5) ≠ 0 →
      Driver.bmp180_calculate_values c UT UP =
        some (Spec.shr (Spec.add b5 8) 4,
          Spec.pressure_of_p (step10 (Spec.B7 c (Spec.B6 b5) UP) (Spec.B4 c (Spec.B6 b5)))) ∧
      Userspace.bmp180_calculate_values c UT UP =
        some (Spec.shr (Spec.add b5 8) 4,
          Spec.pressure_of_p
            (step10 (Userspace.B7_of c (Spec.B6 b5) UP) (Spec.B4 c (Spec.B6 b5))))) := by
  constructor
  · unfold step10
    by_cases hlt : B7 < 0x80000000
    · rw [if_pos hlt, if_pos hlt]
      have hd : toU32 (B7 * 2) = 2 * B7 := by
        norm_num at hlt
        unfold toU32; omega
      have hq0 : 0 ≤ 2 * B7 / B4 := Int.ediv_nonneg (by omega) (by omega)
      have hq : (toU32 (B7 * 2)).tdiv B4 = 2 * B7 / B4 := by
        rw [hd, Int.tdiv_eq_ediv (by omega) (by omega)]
      refine ⟨hd, by rw [hq], ?_⟩
      intro hsmall
      rw [hq]
      exact toS32_of_range (by omega) (by omega)
    · rw [if_neg hlt, if_neg hlt, Int.tdiv_eq_ediv h7 (by omega)]
  · intro c UT UP b5 hc hb5 hne
    have r4 := spec_B4_range c (Spec.B6 b5)
    have r7 := spec_B7_range c (Spec.B6 b5) UP
    have r7' := B7_of_range c (Spec.B6 b5) UP
    rw [Driver_refines, Userspace_refines c UT UP hc, hb5]
    simp only [Option.some_bind]
    rw [spec_p_eq_step10 r4.1 r4.2 r7.1 r7.2, spec_p_eq_step10 r4.1 r4.2 r7'.1 r7'.2,
      if_neg hne, if_neg hne]
    exact ⟨rfl, rfl⟩

/-- Witness of C19: the operands of step 10 in the data sheet's example. -/
theorem C19_step10_value_witness :
    (0 : Int) ≤ 1171050000 ∧ (1171050000 : Int) < 4294967296 ∧ (0 : Int) < 33457 ∧
    (33457 : Int) < 4294967296 ∧ step10 1171050000 33457 = 2 * 1171050000 / 33457 :=
  ⟨by decide, by decide, by decide, by decide,
    ((if_pos (show (1171050000 : Int) < 0x80000000 by decide)).mp
      (C19_step10_value 1171050000 33457 (by decide) (by decide) (by decide)
        (by decide)).1).2.2 (by decide)⟩

end BMP180
